import Mathlib

/-!
Verification of the camera-control library (orbit/fly camera controllers,
multi-viewport input arbitration, projection switching, framing of entities).

Embedding conventions:
* `f32` arithmetic is modelled as exact real arithmetic (`ℝ`) for the 3D
  geometry, and as exact rational arithmetic (`ℚ`) for the 2D window/cursor
  bookkeeping (which involves no irrational functions).
* `glam` quaternions are embedded as quadruples of reals with the Hamilton
  product and the `mul_vec3` rotation-action formula.
* Fallible entity/window lookups are embedded as `Option`.
* Bevy systems become pure functions from their inputs and old state to the
  new state.
-/

namespace BC

/-- 3D vector (embeds `glam::Vec3`, `f32` components as exact reals). -/
structure Vec3 where
  x : ℝ
  y : ℝ
  z : ℝ

noncomputable def Vec3.add (a b : Vec3) : Vec3 := ⟨a.x + b.x, a.y + b.y, a.z + b.z⟩

noncomputable def Vec3.sub (a b : Vec3) : Vec3 := ⟨a.x - b.x, a.y - b.y, a.z - b.z⟩

noncomputable def Vec3.smul (r : ℝ) (a : Vec3) : Vec3 := ⟨r * a.x, r * a.y, r * a.z⟩

noncomputable def Vec3.dot (a b : Vec3) : ℝ := a.x * b.x + a.y * b.y + a.z * b.z

noncomputable def Vec3.cross (a b : Vec3) : Vec3 :=
  ⟨a.y * b.z - a.z * b.y, a.z * b.x - a.x * b.z, a.x * b.y - a.y * b.x⟩

/-- `Vec3::length`: Euclidean norm. -/
noncomputable def Vec3.length (a : Vec3) : ℝ := Real.sqrt (a.x ^ 2 + a.y ^ 2 + a.z ^ 2)

noncomputable def Vec3.length_squared (a : Vec3) : ℝ := a.x ^ 2 + a.y ^ 2 + a.z ^ 2

/-- `Vec3::normalize` (the sources only apply it to nonzero vectors). -/
noncomputable def Vec3.normalize (a : Vec3) : Vec3 := a.smul (1 / a.length)

/-- Componentwise minimum (`Vec3::min`). -/
noncomputable def Vec3.minv (a b : Vec3) : Vec3 := ⟨min a.x b.x, min a.y b.y, min a.z b.z⟩

/-- Componentwise maximum (`Vec3::max`). -/
noncomputable def Vec3.maxv (a b : Vec3) : Vec3 := ⟨max a.x b.x, max a.y b.y, max a.z b.z⟩

/-- `Vec3::max_element`. -/
noncomputable def Vec3.max_element (a : Vec3) : ℝ := max a.x (max a.y a.z)

def Vec3.zero : Vec3 := ⟨0, 0, 0⟩

/-- Quaternion (embeds `glam::Quat`). -/
structure Quat where
  x : ℝ
  y : ℝ
  z : ℝ
  w : ℝ

/-- Hamilton product (`Quat::mul`, glam convention: `a * b` applies `b` first). -/
noncomputable def Quat.mul (a b : Quat) : Quat :=
  ⟨a.w * b.x + a.x * b.w + a.y * b.z - a.z * b.y,
   a.w * b.y - a.x * b.z + a.y * b.w + a.z * b.x,
   a.w * b.z + a.x * b.y - a.y * b.x + a.z * b.w,
   a.w * b.w - a.x * b.x - a.y * b.y - a.z * b.z⟩

/-- `Quat::inverse` = conjugate (glam assumes unit quaternions). -/
noncomputable def Quat.inverse (q : Quat) : Quat := ⟨-q.x, -q.y, -q.z, q.w⟩

/-- `Quat::mul_vec3` — glam's rotation action
`v * (w² - ‖b‖²) + b * (2 (v·b)) + (b × v) * (2 w)` where `b` is the vector part. -/
noncomputable def Quat.mulVec3 (q : Quat) (v : Vec3) : Vec3 :=
  let b : Vec3 := ⟨q.x, q.y, q.z⟩
  ((v.smul (q.w * q.w - b.dot b)).add ((b.smul (2 * v.dot b)).add
    ((b.cross v).smul (2 * q.w))))

/-- `Quat::from_rotation_x`. -/
noncomputable def Quat.fromRotationX (a : ℝ) : Quat :=
  ⟨Real.sin (a / 2), 0, 0, Real.cos (a / 2)⟩

/-- `Quat::from_rotation_y`. -/
noncomputable def Quat.fromRotationY (a : ℝ) : Quat :=
  ⟨0, Real.sin (a / 2), 0, Real.cos (a / 2)⟩

def Quat.identity : Quat := ⟨0, 0, 0, 1⟩

/-- Bevy `Transform` (scale is never touched by this library, so omitted). -/
structure Transform where
  rotation : Quat
  translation : Vec3

/-- `Transform::back` = `rotation * Vec3::Z`. -/
noncomputable def Transform.back (t : Transform) : Vec3 := t.rotation.mulVec3 ⟨0, 0, 1⟩

/-- `Transform::forward` = `rotation * Vec3::NEG_Z`. -/
noncomputable def Transform.forward (t : Transform) : Vec3 := t.rotation.mulVec3 ⟨0, 0, -1⟩

/-- Bevy `Projection`: perspective `{fov, aspect_ratio, near, far}` or
orthographic `{scale, area (width, height), near, far}`. -/
inductive Projection where
  | perspective (fov aspect_ratio near far : ℝ)
  | orthographic (scale area_width area_height near far : ℝ)

def Projection.isOrthographic : Projection → Bool
  | .perspective _ _ _ _ => false
  | .orthographic _ _ _ _ _ => true

/-! ## `utils.rs` -/

/-- `utils::calculate_from_translation_and_focus`: recover `(yaw, pitch, radius)`
from a camera translation and its focus point. -/
noncomputable def calculate_from_translation_and_focus (translation focus : Vec3) :
    ℝ × ℝ × ℝ :=
  let comp_vec := translation.sub focus
  let radius := max comp_vec.length 0.05
  let yaw :=
    if comp_vec.x = 0 ∧ 0 ≤ comp_vec.z then 0
    else Real.arccos (comp_vec.z / Real.sqrt (comp_vec.x ^ 2 + comp_vec.z ^ 2))
  let pitch := Real.arcsin (comp_vec.y / radius)
  (yaw, pitch, radius)

/-- `utils::camera_transform_form_orbit`: rotation `Ry(yaw) * Rx(-pitch)`,
translation `focus + back * radius`. -/
noncomputable def camera_transform_form_orbit (yaw pitch radius : ℝ) (focus : Vec3) :
    Transform :=
  let rotation := (Quat.fromRotationY yaw).mul (Quat.fromRotationX (-pitch))
  let t : Transform := ⟨rotation, Vec3.zero⟩
  ⟨rotation, focus.add (t.back.smul radius)⟩

/-- `utils::update_orbit_transform`: in the orthographic case the scale is set
to `radius` and the positioning radius is replaced by `(near + far) / 2`;
returns the new transform and projection. -/
noncomputable def update_orbit_transform (yaw pitch radius : ℝ) (focus : Vec3)
    (projection : Projection) : Transform × Projection :=
  match projection with
  | .orthographic _scale w h near far =>
      (camera_transform_form_orbit yaw pitch ((near + far) / 2) focus,
       .orthographic radius w h near far)
  | .perspective fov ar near far =>
      (camera_transform_form_orbit yaw pitch radius focus,
       .perspective fov ar near far)

/-! ## Controller components (`orbit.rs`, `fly.rs`)

Mouse buttons and key codes are embedded as natural numbers. -/

/-- `OrbitCameraController` component. -/
structure OrbitCameraController where
  focus : Vec3
  radius : Option ℝ
  yaw : Option ℝ
  pitch : Option ℝ
  orbit_sensitivity : ℝ
  pan_sensitivity : ℝ
  zoom_sensitivity : ℝ
  button_orbit : ℕ
  modifier_orbit : Option ℕ
  button_pan : ℕ
  modifier_pan : Option ℕ
  is_enabled : Bool
  is_initialized : Bool
  zoom_to_mouse_position : Bool
  auto_depth : Bool
  wrap_cursor : Bool
  is_upside_down : Bool
  force_update : Bool

/-- `FlyCameraController` component. -/
structure FlyCameraController where
  speed : ℝ
  key_move_forward : ℕ
  key_move_backward : ℕ
  key_move_left : ℕ
  key_move_right : ℕ
  key_move_up : ℕ
  key_move_down : ℕ
  button_rotate : ℕ
  modifier_rotate : Option ℕ
  speed_sensitivity : ℝ
  move_sensitivity : ℝ
  rotate_sensitivity : ℝ
  is_enabled : Bool
  grab_cursor : Bool

/-! ## `input.rs` -/

/-- Bevy `ButtonInput<T>` snapshot (codes as naturals). -/
structure ButtonInputState where
  pressed_list : List ℕ
  just_pressed_list : List ℕ
  just_released_list : List ℕ

def ButtonInputState.pressed (b : ButtonInputState) (k : ℕ) : Bool :=
  b.pressed_list.contains k

def ButtonInputState.just_pressed (b : ButtonInputState) (k : ℕ) : Bool :=
  b.just_pressed_list.contains k

def ButtonInputState.just_released (b : ButtonInputState) (k : ℕ) : Bool :=
  b.just_released_list.contains k

/-- `input::orbit_just_pressed`. -/
def orbit_just_pressed (pan_orbit : OrbitCameraController)
    (mouse_input key_input : ButtonInputState) : Bool :=
  ((pan_orbit.modifier_orbit.map (fun m => key_input.pressed m)).getD true
      && mouse_input.just_pressed pan_orbit.button_orbit)
    && (pan_orbit.modifier_pan.map (fun m => !key_input.pressed m)).getD true

/-- `input::orbit_just_released`. -/
def orbit_just_released (pan_orbit : OrbitCameraController)
    (mouse_input key_input : ButtonInputState) : Bool :=
  ((pan_orbit.modifier_orbit.map (fun m => key_input.pressed m)).getD true
      && mouse_input.just_released pan_orbit.button_orbit)
    && (pan_orbit.modifier_pan.map (fun m => !key_input.pressed m)).getD true

/-- `input::pan_just_pressed`. -/
def pan_just_pressed (pan_orbit : OrbitCameraController)
    (mouse_input key_input : ButtonInputState) : Bool :=
  ((pan_orbit.modifier_pan.map (fun m => key_input.pressed m)).getD true
      && mouse_input.just_pressed pan_orbit.button_pan)
    && (pan_orbit.modifier_orbit.map (fun m => !key_input.pressed m)).getD true

/-- `input::rotate_just_pressed`. -/
def rotate_just_pressed (fly_controller : FlyCameraController)
    (mouse_input key_input : ButtonInputState) : Bool :=
  (fly_controller.modifier_rotate.map (fun m => key_input.pressed m)).getD true
    && mouse_input.just_pressed fly_controller.button_rotate

/-- Per-frame aggregated input deltas (`input::MouseKeyTracker`). -/
structure MouseKeyTracker where
  orbit : ℝ × ℝ
  pan : ℝ × ℝ
  scroll_line : ℝ
  scroll_pixel : ℝ
  orbit_button_changed : Bool
  rotate : ℝ × ℝ

/-! ## Windows, viewports, touches (`lib.rs`, 2D bookkeeping over ℚ) -/

/-- A logical rectangle (`bevy::math::Rect`), as `(min, max)` corners. -/
structure Rect2 where
  rmin : ℚ × ℚ
  rmax : ℚ × ℚ
deriving DecidableEq

/-- The per-window data the arbiter reads. -/
structure WindowState where
  cursor_pos : Option (ℚ × ℚ)
  width : ℚ
  height : ℚ
deriving DecidableEq

/-- `bevy::window::WindowRef`. -/
inductive WindowRefM where
  | primary
  | entity (e : ℕ)
deriving DecidableEq

/-- `bevy::render::camera::RenderTarget` (non-window targets collapsed). -/
inductive RenderTargetM where
  | window (wref : WindowRefM)
  | other
deriving DecidableEq

/-- The fields of `bevy::render::camera::Camera` the library reads. -/
structure CameraM where
  target : RenderTargetM
  viewport_rect : Option Rect2
  viewport_size : Option (ℚ × ℚ)
  order : ℤ
deriving DecidableEq

/-- `bevy::input::touch::Touches`: positions of the just-pressed touches (in
iteration order) and the total number of current touches. -/
structure TouchesM where
  just_pressed_pos : List (ℚ × ℚ)
  total_count : ℕ
deriving DecidableEq

/-- The window queries: the `PrimaryWindow` singleton (`get_single`) and the
other windows keyed by entity. -/
structure WindowsM where
  primary : Option (ℕ × WindowState)
  others : List (ℕ × WindowState)
deriving DecidableEq

def WindowsM.resolve (w : WindowsM) : WindowRefM → Option (ℕ × WindowState)
  | .primary => w.primary
  | .entity e => w.others.find? (fun p => p.1 == e)

/-- `get_window_if_cursor_in_camera_viewport`: if the camera renders to an
existing window and the cursor (or first just-pressed touch, when touches are
supplied) lies strictly inside the camera's logical viewport rectangle, return
that window. -/
def get_window_if_cursor_in_camera_viewport (camera : CameraM)
    (touches : Option TouchesM) (windows : WindowsM) : Option (ℕ × WindowState) :=
  match camera.target with
  | .other => none
  | .window wref =>
    match windows.resolve wref with
    | none => none
    | some (window_entity, window) =>
      let touch_pos : Option (ℚ × ℚ) :=
        match touches with
        | none => none
        | some t => t.just_pressed_pos.head?
      match window.cursor_pos.or touch_pos with
      | none => none
      | some input_position =>
        match camera.viewport_rect with
        | none => none
        | some r =>
          if input_position.1 > r.rmin.1 && input_position.1 < r.rmax.1
              && input_position.2 > r.rmin.2 && input_position.2 < r.rmax.2 then
            some (window_entity, window)
          else none

/-- `get_camera_entity_from_cursor_position`: last camera, among those whose
viewport contains the cursor, whose order is at least the running maximum
(which starts at 0). -/
def get_camera_entity_from_cursor_position (cameras_query : List (ℕ × CameraM))
    (windows : WindowsM) : Option ℕ :=
  (cameras_query.foldl (fun acc ec =>
    if (get_window_if_cursor_in_camera_viewport ec.2 none windows).isSome then
      if ec.2.order ≥ acc.2 then (some ec.1, ec.2.order) else acc
    else acc) ((none : Option ℕ), (0 : ℤ))).1

/-! ## `ActiveCameraData` and the arbiter (`active_viewport_data_system`) -/

/-- Resource `ActiveCameraData`. -/
structure ActiveCameraData where
  entity : Option ℕ
  viewport_size : Option (ℚ × ℚ)
  window_size : Option (ℚ × ℚ)
  manual : Bool
  window_entity : Option ℕ
deriving DecidableEq

/-- `ActiveCameraData::default()`. -/
def ActiveCameraData.default : ActiveCameraData := ⟨none, none, none, false, none⟩

/-- A row of the arbiter's `orbit_fly_cameras` query. -/
structure CameraEntry where
  entity : ℕ
  camera : CameraM
  orbit : Option OrbitCameraController
  fly : Option FlyCameraController

/-- The per-camera `drag_just_activated` flag of `active_viewport_data_system`. -/
def entry_drag_just_activated (e : CameraEntry)
    (mouse_input key_input : ButtonInputState) : Bool :=
  (match e.orbit with
   | some oc => oc.is_enabled
       && (orbit_just_pressed oc mouse_input key_input
           || pan_just_pressed oc mouse_input key_input)
   | none => false)
  || (match e.fly with
      | some fc => fc.is_enabled && rotate_just_pressed fc mouse_input key_input
      | none => false)

/-- The per-camera `input_just_activated` flag: a drag press, any scroll event,
or an all-new touch set. -/
def entry_input_just_activated (e : CameraEntry)
    (mouse_input key_input : ButtonInputState) (scroll_events_nonempty : Bool)
    (touches : TouchesM) : Bool :=
  entry_drag_just_activated e mouse_input key_input
    || scroll_events_nonempty
    || (touches.just_pressed_pos.length != 0
        && touches.just_pressed_pos.length == touches.total_count)

/-- The `ActiveCameraData` value the arbiter stores for a winning camera. -/
def winner_data (e : CameraEntry) (window_entity : ℕ) (window : WindowState) :
    ActiveCameraData :=
  ⟨some e.entity, e.camera.viewport_size, some (window.width, window.height),
   false, some window_entity⟩

/-- `active_viewport_data_system` (the egui feature is off, so
`should_get_input` is always true; `set_if_neq` is modelled by its value
semantics).  The plugin only runs this system when `active_cam.manual` is
false. -/
def active_viewport_data_system (active_cam : ActiveCameraData)
    (mouse_input key_input : ButtonInputState) (scroll_events_nonempty : Bool)
    (touches : TouchesM) (windows : WindowsM)
    (orbit_fly_cameras : List CameraEntry) : ActiveCameraData :=
  let r := orbit_fly_cameras.foldl (fun acc e =>
    if e.orbit.isNone && e.fly.isNone then acc
    else
      if entry_input_just_activated e mouse_input key_input
          scroll_events_nonempty touches then
        match get_window_if_cursor_in_camera_viewport e.camera (some touches)
            windows with
        | some (window_entity, window) =>
          if e.camera.order ≥ acc.2.1 then
            (winner_data e window_entity window, e.camera.order, true)
          else (acc.1, acc.2.1, true)
        | none => (acc.1, acc.2.1, true)
      else acc) (ActiveCameraData.default, (0 : ℤ), false)
  if r.2.2 then r.1 else active_cam

/-! ## Orbit controller (`orbit.rs`) -/

/-- `Option::unwrap` on an `f32` field.  Every use below is guarded by
initialization (mirroring the Rust panic-freedom argument), so the default
value is never observable in the theorems. -/
noncomputable def unwrapR (o : Option ℝ) : ℝ := o.getD 0

/-- Cast a rational 2D size (window bookkeeping) into the real world of the
3D math. -/
noncomputable def q2r (p : ℚ × ℚ) : ℝ × ℝ := ((p.1 : ℝ), (p.2 : ℝ))

/-- `Transform::rotate_around`. -/
noncomputable def Transform.rotate_around (t : Transform) (point : Vec3) (q : Quat) :
    Transform :=
  ⟨q.mul t.rotation, point.add (q.mulVec3 (t.translation.sub point))⟩

/-- A ray (`bevy_mod_raycast::Ray3d`). -/
structure RayM where
  origin : Vec3
  direction : Vec3

/-- `RaycastSource`: the cursor ray (`get_ray`) and the position of the nearest
intersection (`get_nearest_intersection`), both supplied by the raycast
collaborator. -/
structure RaycastSourceState where
  ray : Option RayM
  nearest_hit : Option Vec3

/-- `OrbitCameraController::initialize_if_necessary` (named `init_if_necessary`
here): derive unset yaw/pitch/radius from the current transform, write the
orbit transform back, and mark the controller initialized. -/
noncomputable def init_if_necessary (c : OrbitCameraController)
    (transform : Transform) (projection : Projection) :
    OrbitCameraController × Transform × Projection :=
  if c.is_initialized = true then (c, transform, projection)
  else
    let ypr := calculate_from_translation_and_focus transform.translation c.focus
    let yaw := c.yaw.getD ypr.1
    let pitch := c.pitch.getD ypr.2.1
    let radius := c.radius.getD ypr.2.2
    let tp := update_orbit_transform yaw pitch radius c.focus projection
    ({ c with yaw := some yaw, pitch := some pitch, radius := some radius,
              is_initialized := true },
     tp.1, tp.2)

/-- Result of one `orbit_camera` call: the mutated controller, the (possibly
rewritten) shared pivot point, and the `has_moved` return value. -/
structure OrbitCameraResult where
  controller : OrbitCameraController
  pivot : Vec3
  has_moved : Bool

/-- The pivot-update block of `orbit_camera` (`orbit.rs` lines 181–240):
returns the controller (whose focus/radius may move under `auto_depth`) and
the new pivot point. -/
noncomputable def orbit_camera_pivot_block (controller : OrbitCameraController)
    (raycast_source : RaycastSourceState) (transform : Transform)
    (projection : Projection) (key_input mouse_input : ButtonInputState)
    (mouse_key_tracker : MouseKeyTracker) (pivot_point : Vec3) :
    OrbitCameraController × Vec3 :=
  if (controller.auto_depth = true ∨ controller.zoom_to_mouse_position = true)
      ∧ (orbit_just_pressed controller mouse_input key_input = true
         ∨ pan_just_pressed controller mouse_input key_input = true
         ∨ mouse_key_tracker.scroll_line ≠ 0
         ∨ mouse_key_tracker.scroll_pixel ≠ 0) then
    match raycast_source.ray with
    | none => (controller, pivot_point)
    | some cursor_ray =>
      match raycast_source.nearest_hit with
      | some hit_position =>
        let pivot := hit_position
        if controller.auto_depth = true then
          let camera_transform :=
            match projection with
            | .perspective _ _ _ _ => transform
            | .orthographic _ _ _ _ _ =>
                camera_transform_form_orbit (unwrapR controller.yaw)
                  (unwrapR controller.pitch) (unwrapR controller.radius)
                  controller.focus
          let camera_to_pivot := pivot.sub camera_transform.translation
          let pivot_distance := camera_to_pivot.length
          let factor := camera_transform.forward.dot camera_to_pivot.normalize
          let new_radius := max (pivot_distance * factor) 0.05
          let new_focus := camera_transform.translation.add
            (camera_transform.forward.smul new_radius)
          let controller' :=
            match projection with
            | .perspective _ _ _ _ =>
                { controller with radius := some new_radius, focus := new_focus }
            | .orthographic _ _ _ _ _ => { controller with focus := new_focus }
          (controller', pivot)
        else (controller, pivot)
      | none =>
        let pivot :=
          match projection with
          | .perspective _ _ _ _ =>
              let factor := transform.forward.dot cursor_ray.direction
              transform.translation.add
                (cursor_ray.direction.smul (unwrapR controller.radius / factor))
          | .orthographic _ _ _ near far =>
              let radius_minus_near := (far - near) / 2
              cursor_ray.origin.add (cursor_ray.direction.smul radius_minus_near)
        (controller, pivot)
  else (controller, pivot_point)

/-- The orbit-rotation branch of `orbit_camera` (`orbit.rs` lines 255–291). -/
noncomputable def orbit_camera_orbit_step (c : OrbitCameraController)
    (orbitv : ℝ × ℝ) (window_size : Option (ℝ × ℝ)) (pivot : Vec3) :
    OrbitCameraController × Bool :=
  if orbitv.1 * orbitv.1 + orbitv.2 * orbitv.2 > 0 then
    match window_size with
    | some win_size =>
      let delta_yaw0 := orbitv.1 / win_size.1 * Real.pi * 2
      let delta_yaw := if c.is_upside_down = true then -delta_yaw0 else delta_yaw0
      let delta_pitch := orbitv.2 / win_size.2 * Real.pi
      let pre_yaw := unwrapR c.yaw
      let pre_pitch := unwrapR c.pitch
      let c1 := { c with yaw := c.yaw.map (fun v => v - delta_yaw),
                         pitch := c.pitch.map (fun v => v + delta_pitch) }
      let c2 :=
        if c1.auto_depth = true then
          let transform_tmp := camera_transform_form_orbit pre_yaw pre_pitch
            (unwrapR c1.radius) c1.focus
          let yawq := Quat.fromRotationY (-delta_yaw)
          let pitchq := Quat.fromRotationX (-delta_pitch)
          let pitch_global :=
            (transform_tmp.rotation.mul pitchq).mul transform_tmp.rotation.inverse
          let transform_tmp2 := transform_tmp.rotate_around pivot
            (yawq.mul pitch_global)
          let new_focus := transform_tmp2.translation.add
            (transform_tmp2.forward.smul (unwrapR c1.radius))
          { c1 with focus := new_focus }
        else c1
      (c2, true)
    | none => (c, false)
  else (c, false)

/-- The pan branch of `orbit_camera` (`orbit.rs` lines 292–316). -/
noncomputable def orbit_camera_pan_step (c : OrbitCameraController)
    (panv : ℝ × ℝ) (viewport_size : Option (ℝ × ℝ)) (transform : Transform)
    (projection : Projection) : OrbitCameraController × Bool :=
  if panv.1 * panv.1 + panv.2 * panv.2 > 0 then
    match viewport_size with
    | some vp_size =>
      let pm : (ℝ × ℝ) × ℝ :=
        match projection with
        | .perspective fov ar _ _ =>
            ((panv.1 * (fov * ar) / vp_size.1, panv.2 * fov / vp_size.2),
             match c.radius with
             | some radius => radius
             | none => 1)
        | .orthographic _ w h _ _ =>
            ((panv.1 * w / vp_size.1, panv.2 * h / vp_size.2), 1)
      let right := (transform.rotation.mulVec3 ⟨1, 0, 0⟩).smul (-pm.1.1)
      let up := (transform.rotation.mulVec3 ⟨0, 1, 0⟩).smul pm.1.2
      let translation := (right.add up).smul pm.2
      ({ c with focus := c.focus.add translation }, true)
    | none => (c, false)
  else (c, false)

/-- The zoom branch of `orbit_camera` (`orbit.rs` lines 317–357). -/
noncomputable def orbit_camera_zoom_step (c : OrbitCameraController)
    (scroll_line scroll_pixel : ℝ) (transform : Transform)
    (projection : Projection) (pivot : Vec3) : OrbitCameraController × Bool :=
  if |scroll_line + scroll_pixel| > 0 then
    let old_radius := unwrapR c.radius
    let line_delta := -scroll_line * old_radius * 0.2
    let pixel_delta := -scroll_pixel * old_radius * 0.2
    let radius_delta := line_delta + pixel_delta
    let c1 := { c with radius := c.radius.map (fun v => v + radius_delta) }
    let c2 :=
      if c1.zoom_to_mouse_position = true then
        match projection with
        | .perspective _ _ _ _ =>
            let old_camera_pos := transform.translation
            let old_camera_to_pivot := pivot.sub old_camera_pos
            let mouse_direction := old_camera_to_pivot.normalize
            let factor := transform.forward.dot mouse_direction
            let new_camera_pos := old_camera_pos.add
              (mouse_direction.smul (-radius_delta / factor))
            let new_focus := new_camera_pos.add
              (transform.forward.smul (unwrapR c1.radius))
            { c1 with focus := new_focus }
        | .orthographic _ _ _ _ _ =>
            let focus_to_pivot := pivot.sub c1.focus
            let ftp1 := transform.rotation.inverse.mulVec3 focus_to_pivot
            let ftp2 : Vec3 := ⟨ftp1.x, ftp1.y, 0⟩
            let ftp3 := transform.rotation.mulVec3 ftp2
            let new_radius := unwrapR c1.radius
            let new_focus := c1.focus.add (ftp3.smul (1 - new_radius / old_radius))
            { c1 with focus := new_focus }
      else c1
    (c2, true)
  else (c, false)

/-- `orbit_camera` (`orbit.rs` lines 169–359): pivot update, upside-down
recomputation, then the orbit / pan / zoom branches in order. -/
noncomputable def orbit_camera (controller : OrbitCameraController)
    (raycast_source : RaycastSourceState) (transform : Transform)
    (projection : Projection) (window_size viewport_size : Option (ℝ × ℝ))
    (key_input mouse_input : ButtonInputState)
    (mouse_key_tracker : MouseKeyTracker) (pivot_point : Vec3) :
    OrbitCameraResult :=
  let cp := orbit_camera_pivot_block controller raycast_source transform
    projection key_input mouse_input mouse_key_tracker pivot_point
  let c0 := cp.1
  let pivot := cp.2
  let orbitv := (mouse_key_tracker.orbit.1 * c0.orbit_sensitivity,
                 mouse_key_tracker.orbit.2 * c0.orbit_sensitivity)
  let panv := (mouse_key_tracker.pan.1 * c0.pan_sensitivity,
               mouse_key_tracker.pan.2 * c0.pan_sensitivity)
  let scroll_line := mouse_key_tracker.scroll_line * c0.zoom_sensitivity
  let scroll_pixel := mouse_key_tracker.scroll_pixel * c0.zoom_sensitivity
  let c1 :=
    if mouse_key_tracker.orbit_button_changed = true then
      let up := transform.rotation.mulVec3 ⟨0, 1, 0⟩
      { c0 with is_upside_down := decide (up.y ≤ 0) }
    else c0
  let so := orbit_camera_orbit_step c1 orbitv window_size pivot
  let sp := orbit_camera_pan_step so.1 panv viewport_size transform projection
  let sz := orbit_camera_zoom_step sp.1 scroll_line scroll_pixel transform
    projection pivot
  ⟨sz.1, pivot, so.2 || sp.2 || sz.2⟩

/-- A row of the query of `orbit_camera_controller_system`. -/
structure OrbitCamEntry where
  entity : ℕ
  controller : OrbitCameraController
  raycast_source : RaycastSourceState
  transform : Transform
  projection : Projection

/-- The body of `orbit_camera_controller_system` for one camera: lazy
initialization, the `orbit_camera` call when this camera is enabled and
active, then the transform rewrite when something moved or `force_update` is
set. -/
noncomputable def orbit_entry_update (active_entity : Option ℕ)
    (window_size viewport_size : Option (ℝ × ℝ))
    (key_input mouse_input : ButtonInputState)
    (mouse_key_tracker : MouseKeyTracker) (e : OrbitCamEntry)
    (pivot_point : Vec3) : OrbitCamEntry × Vec3 :=
  let itp := init_if_necessary e.controller e.transform e.projection
  let c0 := itp.1
  let t0 := itp.2.1
  let p0 := itp.2.2
  let step : OrbitCameraController × Vec3 × Bool :=
    if c0.is_enabled = true ∧ active_entity = some e.entity then
      let r := orbit_camera c0 e.raycast_source t0 p0 window_size viewport_size
        key_input mouse_input mouse_key_tracker pivot_point
      (r.controller, r.pivot, r.has_moved)
    else (c0, pivot_point, false)
  let c1 := step.1
  let pivot1 := step.2.1
  let has_moved := step.2.2
  match c1.yaw, c1.pitch, c1.radius with
  | some yaw, some pitch, some radius =>
    if has_moved = true ∨ c1.force_update = true then
      let tp := update_orbit_transform yaw pitch radius c1.focus p0
      (⟨e.entity, { c1 with force_update := false }, e.raycast_source,
        tp.1, tp.2⟩, pivot1)
    else (⟨e.entity, c1, e.raycast_source, t0, p0⟩, pivot1)
  | _, _, _ => (⟨e.entity, c1, e.raycast_source, t0, p0⟩, pivot1)

/-- `orbit_camera_controller_system`: iterate over the orbit cameras threading
the single `Local<Vec3>` pivot point through every camera. -/
noncomputable def orbit_camera_controller_system (active_cam : ActiveCameraData)
    (key_input mouse_input : ButtonInputState)
    (mouse_key_tracker : MouseKeyTracker) (orbit_cameras : List OrbitCamEntry)
    (pivot_point : Vec3) : List OrbitCamEntry × Vec3 :=
  orbit_cameras.foldl (fun acc e =>
    let r := orbit_entry_update active_cam.entity
      (active_cam.window_size.map q2r) (active_cam.viewport_size.map q2r)
      key_input mouse_input mouse_key_tracker e acc.2
    (acc.1 ++ [r.1], r.2)) (([] : List OrbitCamEntry), pivot_point)

/-! ## Fly controller speed (`fly.rs`) -/

/-- `f32::clamp` (Rust): `if x < lo { lo } else if x > hi { hi } else { x }`. -/
noncomputable def rust_clamp (x lo hi : ℝ) : ℝ :=
  if x < lo then lo else if x > hi then hi else x

/-- The speed-update block of `fly_camera_controller_system` (`fly.rs` lines
74–90) — the only writes to `FlyCameraController::speed` in the library. -/
noncomputable def fly_camera_speed_update (controller : FlyCameraController)
    (tracker_scroll_line tracker_scroll_pixel : ℝ) : FlyCameraController :=
  let scroll_line := tracker_scroll_line * controller.speed_sensitivity
  let scroll_pixel := tracker_scroll_pixel * controller.speed_sensitivity
  if |scroll_line + scroll_pixel| > 0 then
    let old_speed := controller.speed
    let line_delta := scroll_line * old_speed * 0.1
    let pixel_delta := scroll_pixel * old_speed * 0.1
    let speed_delta := line_delta + pixel_delta
    let speed1 := controller.speed + speed_delta
    { controller with speed := rust_clamp speed1 0.05 100 }
  else controller

/-- The speed evolution of an active fly camera over a sequence of per-frame
scroll inputs `(scroll_line, scroll_pixel)`. -/
noncomputable def fly_camera_speed_run (controller : FlyCameraController)
    (scrolls : List (ℝ × ℝ)) : FlyCameraController :=
  scrolls.foldl (fun c s => fly_camera_speed_update c s.1 s.2) controller

/-! ## Mode-switch and projection-switch systems (`lib.rs` lines 550–674) -/

/-- `atan2` (for the Euler-angle extraction). -/
noncomputable def atan2 (y x : ℝ) : ℝ :=
  if 0 < x then Real.arctan (y / x)
  else if x < 0 then
    (if 0 ≤ y then Real.arctan (y / x) + Real.pi
     else Real.arctan (y / x) - Real.pi)
  else if 0 < y then Real.pi / 2
  else if y < 0 then -(Real.pi / 2)
  else 0

/-- `Quat::to_euler(EulerRot::YXZ)`: `(yaw, pitch, roll)` from the rotation
matrix entries of the quaternion. -/
noncomputable def Quat.toEulerYXZ (q : Quat) : ℝ × ℝ × ℝ :=
  let m13 := 2 * (q.x * q.z + q.w * q.y)
  let m21 := 2 * (q.x * q.y + q.w * q.z)
  let m22 := 1 - 2 * (q.x * q.x + q.z * q.z)
  let m23 := 2 * (q.y * q.z - q.w * q.x)
  let m33 := 1 - 2 * (q.x * q.x + q.y * q.y)
  (atan2 m13 m33, Real.arcsin (-m23), atan2 m21 m22)

/-- The per-camera components touched by the three switch systems.
`other_projection` is the `OtherProjection` cache, created by the
`OrbitCameraController` component hook as a projection of the kind opposite
to the camera's active projection. -/
structure SwitchCamState where
  transform : Transform
  orbit : OrbitCameraController
  fly : FlyCameraController
  projection : Projection
  other_projection : Projection

/-- `switch_camera_projection`: update the transform and the incoming
projection from the orbit parameters, then `mem::swap` the two projections.
Returns `(transform, next_projection, projection)` after the call. -/
noncomputable def switch_camera_projection (orbit_controller : OrbitCameraController)
    (next_projection projection : Projection) :
    Transform × Projection × Projection :=
  let tp := update_orbit_transform (unwrapR orbit_controller.yaw)
    (unwrapR orbit_controller.pitch) (unwrapR orbit_controller.radius)
    orbit_controller.focus next_projection
  (tp.1, projection, tp.2)

/-- Effect of one `SwitchToOrbitController` event on a present camera
(`switch_to_orbit_camera_controller_system`). -/
noncomputable def switch_to_orbit_camera_controller (s : SwitchCamState) :
    SwitchCamState :=
  if s.fly.is_enabled = true then
    let fly' := { s.fly with is_enabled := false }
    let orbit1 := { s.orbit with is_enabled := true }
    let ypr := s.transform.rotation.toEulerYXZ
    let new_focus := s.transform.translation.add
      (s.transform.forward.smul (unwrapR orbit1.radius))
    let orbit2 := { orbit1 with yaw := some ypr.1, pitch := some (-ypr.2.1),
                                focus := new_focus }
    ⟨s.transform, orbit2, fly', s.projection, s.other_projection⟩
  else s

/-- Effect of one `SwitchToFlyController` event on a present camera
(`switch_to_fly_camera_controller_system`): if orbit is enabled, swap the
enabled flags and, when the active projection is orthographic, force a
projection switch to the cached (perspective) projection first. -/
noncomputable def switch_to_fly_camera_controller (s : SwitchCamState) :
    SwitchCamState :=
  if s.orbit.is_enabled = true then
    let orbit' := { s.orbit with is_enabled := false }
    let fly' := { s.fly with is_enabled := true }
    match s.projection with
    | .orthographic _ _ _ _ _ =>
      let r := switch_camera_projection orbit' s.other_projection s.projection
      ⟨r.1, orbit', fly', r.2.2, r.2.1⟩
    | .perspective _ _ _ _ =>
      ⟨s.transform, orbit', fly', s.projection, s.other_projection⟩
  else s

/-- Effect of one `SwitchProjection` event on a present camera
(`switch_camera_projection_system`): ignored unless orbit is enabled. -/
noncomputable def switch_camera_projection_on_event (s : SwitchCamState) :
    SwitchCamState :=
  if s.orbit.is_enabled = true then
    let r := switch_camera_projection s.orbit s.other_projection s.projection
    ⟨r.1, s.orbit, s.fly, r.2.2, r.2.1⟩
  else s

/-- The mode/projection switch events targeting a camera. -/
inductive CamSwitchEvent where
  | switchToOrbit
  | switchToFly
  | switchProjection
deriving DecidableEq

noncomputable def apply_switch_event (s : SwitchCamState) :
    CamSwitchEvent → SwitchCamState
  | .switchToOrbit => switch_to_orbit_camera_controller s
  | .switchToFly => switch_to_fly_camera_controller s
  | .switchProjection => switch_camera_projection_on_event s

noncomputable def apply_switch_events (s : SwitchCamState)
    (evs : List CamSwitchEvent) : SwitchCamState :=
  evs.foldl apply_switch_event s

/-! ## Frame-to-bounds (`frame.rs`) -/

/-- A row of the `entities_query` of `frame_system`: the entity's
`GlobalTransform` (as its affine action on points), its optional local `Aabb`
(min/max corners) and its optional `Children` list. -/
structure SceneEntityData where
  global_transform : Vec3 → Vec3
  aabb : Option (Vec3 × Vec3)
  children : Option (List ℕ)

/-- The scene rows, keyed by entity. -/
abbrev SceneM := List (ℕ × SceneEntityData)

/-- `combine_bounds` lifted to optional bounds.  The Rust fold uses the
sentinel `(Vec3::INFINITY, Vec3::NEG_INFINITY)`, which is the identity of
`combine_bounds`; the sentinel is embedded as `none` (the Rust degeneracy
test `max_element(diag) > 0.0` is false exactly when the sentinel survives,
matching the `none` branch below). -/
noncomputable def combine_bounds_opt :
    Option (Vec3 × Vec3) → Option (Vec3 × Vec3) → Option (Vec3 × Vec3)
  | none, b => b
  | a, none => a
  | some a, some b => some ((a.1.minv b.1), (a.2.maxv b.2))

/-- `frame::get_entities_aabb`: union of the targeted entities' transformed
bounding boxes, recursing into children when `include_children`.  `fuel`
bounds the recursion depth through `Children` links (bevy hierarchies are
acyclic, so any fuel larger than the tree depth is exact). -/
noncomputable def get_entities_aabb (scene : SceneM) :
    ℕ → List ℕ → Bool → Option (Vec3 × Vec3)
  | 0, _, _ => none
  | Nat.succ fuel, entities, include_children =>
    entities.foldl (fun acc entity =>
      match scene.find? (fun p => p.1 == entity) with
      | none => acc
      | some row =>
        let data := row.2
        let entity_bounds : Option (Vec3 × Vec3) :=
          data.aabb.map (fun b => (data.global_transform b.1,
                                   data.global_transform b.2))
        let entity_bounds :=
          if include_children then
            match data.children with
            | some children =>
                combine_bounds_opt entity_bounds
                  (get_entities_aabb scene fuel children include_children)
            | none => entity_bounds
          else entity_bounds
        combine_bounds_opt acc entity_bounds) none

/-- The camera components `frame_system` may mutate (its query keeps only
entities carrying at least one of the two controllers). -/
structure FrameCamState where
  transform : Transform
  orbit : Option OrbitCameraController
  fly : Option FlyCameraController
  projection : Projection

/-- `FrameEvent`. -/
structure FrameEventM where
  camera_entity : ℕ
  entities_to_be_framed : List ℕ
  include_children : Bool

/-- The non-degenerate body of `frame_system` for one event: focus/center the
orbit camera, or back the fly camera away from the center. -/
noncomputable def frame_apply (cam : FrameCamState) (aabb_center : Vec3)
    (distance_camera_to_aabb_center : ℝ) : FrameCamState :=
  let state1 :=
    match cam.orbit with
    | some controller =>
      if controller.is_enabled = true then
        let c1 := { controller with
                    focus := aabb_center,
                    radius := some distance_camera_to_aabb_center }
        let itp := init_if_necessary c1 cam.transform cam.projection
        let c2 := itp.1
        let tp := update_orbit_transform (unwrapR c2.yaw) (unwrapR c2.pitch)
          (unwrapR c2.radius) c2.focus itp.2.2
        { cam with orbit := some c2, transform := tp.1, projection := tp.2 }
      else cam
    | none => cam
  match state1.fly with
  | some controller =>
    if controller.is_enabled = true then
      let new_translation := aabb_center.add
        (state1.transform.back.smul distance_camera_to_aabb_center)
      { state1 with transform := ⟨state1.transform.rotation, new_translation⟩ }
    else state1
  | none => state1

/-- `frame_system`, one `FrameEvent`: returns the updated camera list and the
warnings logged while handling the event. -/
noncomputable def frame_one_event (scene : SceneM) (fuel : ℕ)
    (cameras : List (ℕ × FrameCamState)) (ev : FrameEventM) :
    List (ℕ × FrameCamState) × List String :=
  match cameras.find? (fun p => p.1 == ev.camera_entity) with
  | none => (cameras, ["Camera not found while trying to frame view"])
  | some row =>
    let bounds := get_entities_aabb scene fuel ev.entities_to_be_framed
      ev.include_children
    let degenerate_result : List (ℕ × FrameCamState) × List String :=
      (cameras,
       ["Could not focus because entities (and children) do not have any AABB"])
    match bounds with
    | none => degenerate_result
    | some b =>
      let bounds_min := b.1
      let bounds_max := b.2
      let aabb_diag := bounds_max.sub bounds_min
      if aabb_diag.max_element > 0 then
        let aabb_center := bounds_min.add (aabb_diag.smul 0.5)
        let aabb_radius := aabb_diag.length
        let distance_camera_to_aabb_center := max (1.3 * aabb_radius) 0.05
        let cam' := frame_apply row.2 aabb_center distance_camera_to_aabb_center
        (cameras.map (fun p =>
          if p.1 == ev.camera_entity then (p.1, cam') else p), [])
      else degenerate_result

/-- `frame_system` over its event batch, accumulating warnings. -/
noncomputable def frame_system (scene : SceneM) (fuel : ℕ)
    (events : List FrameEventM) (cameras : List (ℕ × FrameCamState)) :
    List (ℕ × FrameCamState) × List String :=
  events.foldl (fun acc ev =>
    let r := frame_one_event scene fuel acc.1 ev
    (r.1, acc.2 ++ r.2)) (cameras, ([] : List String))

/-! ## Invariants of the mode-switch state machine -/

/-- Exactly one of the two controllers on a camera is enabled. -/
def exclusive_modes (s : SwitchCamState) : Prop :=
  (s.orbit.is_enabled = true ∧ s.fly.is_enabled = false)
  ∨ (s.orbit.is_enabled = false ∧ s.fly.is_enabled = true)

/-- When the fly controller is enabled the active projection is perspective. -/
def fly_implies_perspective (s : SwitchCamState) : Prop :=
  s.fly.is_enabled = true → s.projection.isOrthographic = false

/-- The cached `OtherProjection` is of the kind opposite to the active
projection (established by the `OrbitCameraController` component hook, which
creates the cache from the opposite-kind default). -/
def opposite_projection_kinds (s : SwitchCamState) : Prop :=
  s.projection.isOrthographic ≠ s.other_projection.isOrthographic

lemma update_orbit_transform_kind (yaw pitch radius : ℝ) (focus : Vec3)
    (projection : Projection) :
    ((update_orbit_transform yaw pitch radius focus projection).2).isOrthographic
      = projection.isOrthographic := by
  cases projection <;> rfl

lemma exclusive_modes_step (s : SwitchCamState) (e : CamSwitchEvent)
    (h : exclusive_modes s) : exclusive_modes (apply_switch_event s e) := by
  cases e with
  | switchToOrbit =>
    unfold apply_switch_event switch_to_orbit_camera_controller
    rcases h with ⟨h1, h2⟩ | ⟨h1, h2⟩
    · simp only [h2, exclusive_modes]
      simp [h1, h2]
    · simp only [h2, exclusive_modes]
      simp
  | switchToFly =>
    unfold apply_switch_event switch_to_fly_camera_controller
    rcases h with ⟨h1, h2⟩ | ⟨h1, h2⟩
    · simp only [h1, exclusive_modes]
      cases s.projection <;> simp
    · simp only [h1, exclusive_modes]
      simp [h1, h2]
  | switchProjection =>
    unfold apply_switch_event switch_camera_projection_on_event
    rcases h with ⟨h1, h2⟩ | ⟨h1, h2⟩
    · simp only [h1, exclusive_modes]
      simp [h1, h2]
    · simp only [h1, exclusive_modes]
      simp [h1, h2]

/-- C4: for a camera carrying both controllers with exactly one enabled, any
sequence of `SwitchToFlyController` / `SwitchToOrbitController` events leaves
exactly one of `orbit.is_enabled` / `fly.is_enabled` true — never both, never
neither. -/
theorem C4_mode_exclusivity (s : SwitchCamState) (evs : List CamSwitchEvent)
    (hx : exclusive_modes s)
    (hevs : ∀ e ∈ evs, e = CamSwitchEvent.switchToOrbit
      ∨ e = CamSwitchEvent.switchToFly) :
    exclusive_modes (apply_switch_events s evs) := by
  unfold apply_switch_events
  clear hevs
  induction evs generalizing s with
  | nil => exact hx
  | cons e t ih => exact ih _ (exclusive_modes_step s e hx)

/-- Sample orbit controller used by the witnesses. -/
noncomputable def sampleOrbit : OrbitCameraController :=
  { focus := Vec3.zero, radius := some 1, yaw := some 0, pitch := some 0,
    orbit_sensitivity := 1, pan_sensitivity := 1, zoom_sensitivity := 1,
    button_orbit := 2, modifier_orbit := none, button_pan := 2,
    modifier_pan := some 16, is_enabled := true, is_initialized := true,
    zoom_to_mouse_position := true, auto_depth := true, wrap_cursor := true,
    is_upside_down := false, force_update := false }

/-- Sample fly controller (disabled) used by the witnesses. -/
noncomputable def sampleFly : FlyCameraController :=
  { speed := 1, key_move_forward := 8, key_move_backward := 3,
    key_move_left := 18, key_move_right := 5, key_move_up := 17,
    key_move_down := 22, button_rotate := 2, modifier_rotate := none,
    speed_sensitivity := 1, move_sensitivity := 1, rotate_sensitivity := 1,
    is_enabled := false, grab_cursor := true }

noncomputable def samplePerspective : Projection :=
  Projection.perspective 0.785 1.5 0.1 1000

noncomputable def sampleOrthographic : Projection :=
  Projection.orthographic 1 2 2 (-1) 1000

/-- Sample switch-system camera: orbit enabled, perspective active,
orthographic cached. -/
noncomputable def sampleSwitchState : SwitchCamState :=
  ⟨⟨Quat.identity, Vec3.zero⟩, sampleOrbit, sampleFly, samplePerspective,
   sampleOrthographic⟩

theorem C4_mode_exclusivity_witness :
    exclusive_modes (apply_switch_events sampleSwitchState
      [CamSwitchEvent.switchToFly, CamSwitchEvent.switchToOrbit]) :=
  C4_mode_exclusivity sampleSwitchState
    [CamSwitchEvent.switchToFly, CamSwitchEvent.switchToOrbit]
    (Or.inl ⟨rfl, rfl⟩) (by decide)

/-- The inductive invariant of the switch state machine: mode exclusivity,
fly-implies-perspective, and opposite active/cached projection kinds. -/
def switch_inv (s : SwitchCamState) : Prop :=
  exclusive_modes s ∧ fly_implies_perspective s ∧ opposite_projection_kinds s

lemma switch_inv_step (s : SwitchCamState) (e : CamSwitchEvent)
    (h : switch_inv s) : switch_inv (apply_switch_event s e) := by
  obtain ⟨hx, hfp, hop⟩ := h
  refine ⟨exclusive_modes_step s e hx, ?_, ?_⟩ <;> cases e
  case _ =>
    -- fly-implies-perspective, switchToOrbit
    unfold apply_switch_event switch_to_orbit_camera_controller
    by_cases hf : s.fly.is_enabled = true
    · simp [hf, fly_implies_perspective]
    · simp only [hf, if_neg, Bool.not_eq_true, if_false]
      exact hfp
  case _ =>
    -- fly-implies-perspective, switchToFly
    unfold apply_switch_event switch_to_fly_camera_controller
    by_cases ho : s.orbit.is_enabled = true
    · rcases hproj : s.projection with ⟨fov, ar, n1, f1⟩ | ⟨sc, w, hh, n1, f1⟩
      · intro _
        simp [ho, hproj, Projection.isOrthographic]
      · intro _
        have hother : s.other_projection.isOrthographic = false := by
          have hpt : s.projection.isOrthographic = true := by
            rw [hproj]; rfl
          cases hb : s.other_projection.isOrthographic
          · rfl
          · exact absurd (hpt.trans hb.symm) hop
        simp only [ho, hproj, if_true]
        simp only [switch_camera_projection]
        have hk := update_orbit_transform_kind (unwrapR s.orbit.yaw)
          (unwrapR s.orbit.pitch) (unwrapR s.orbit.radius) s.orbit.focus
          s.other_projection
        simpa using hk.trans hother
    · simp only [ho, if_neg, Bool.not_eq_true, if_false]
      exact hfp
  case _ =>
    -- fly-implies-perspective, switchProjection
    unfold apply_switch_event switch_camera_projection_on_event
    by_cases ho : s.orbit.is_enabled = true
    · intro hfe
      have : s.fly.is_enabled = false := by
        rcases hx with ⟨_, h2⟩ | ⟨h1, _⟩
        · exact h2
        · exact absurd ho (by simp [h1])
      simp only [ho, if_true] at hfe
      exact absurd (this ▸ hfe) (by simp)
    · simp only [ho, if_neg, Bool.not_eq_true, if_false]
      exact hfp
  case _ =>
    -- opposite kinds, switchToOrbit
    unfold apply_switch_event switch_to_orbit_camera_controller
    by_cases hf : s.fly.is_enabled = true
    · simpa [hf, opposite_projection_kinds] using hop
    · simp only [hf, if_neg, Bool.not_eq_true, if_false]
      exact hop
  case _ =>
    -- opposite kinds, switchToFly
    unfold apply_switch_event switch_to_fly_camera_controller
    by_cases ho : s.orbit.is_enabled = true
    · rcases hproj : s.projection with ⟨fov, ar, n1, f1⟩ | ⟨sc, w, hh, n1, f1⟩
      · rw [opposite_projection_kinds, hproj] at hop
        simpa [ho, hproj, opposite_projection_kinds] using hop
      · simp only [ho, hproj, if_true]
        simp only [switch_camera_projection, opposite_projection_kinds]
        have hk := update_orbit_transform_kind (unwrapR s.orbit.yaw)
          (unwrapR s.orbit.pitch) (unwrapR s.orbit.radius) s.orbit.focus
          s.other_projection
        simp only [hk]
        intro hcontra
        exact hop (hproj ▸ hcontra.symm)
    · simp only [ho, if_neg, Bool.not_eq_true, if_false]
      exact hop
  case _ =>
    -- opposite kinds, switchProjection
    unfold apply_switch_event switch_camera_projection_on_event
    by_cases ho : s.orbit.is_enabled = true
    · simp only [ho, if_true]
      simp only [switch_camera_projection, opposite_projection_kinds]
      have hk := update_orbit_transform_kind (unwrapR s.orbit.yaw)
        (unwrapR s.orbit.pitch) (unwrapR s.orbit.radius) s.orbit.focus
        s.other_projection
      simp only [hk]
      intro hcontra
      exact hop hcontra.symm
    · simp only [ho, if_neg, Bool.not_eq_true, if_false]
      exact hop

lemma switch_inv_run (s : SwitchCamState) (evs : List CamSwitchEvent)
    (h : switch_inv s) : switch_inv (apply_switch_events s evs) := by
  unfold apply_switch_events
  induction evs generalizing s with
  | nil => exact h
  | cons e t ih => exact ih _ (switch_inv_step s e h)

/-- C5: starting from a well-formed camera state (one mode enabled,
fly-enabled implies perspective, cached projection of the opposite kind — the
latter being what the `OtherProjection` component hook establishes), no
sequence of switch/projection events reaches the fly-enabled × orthographic
state. -/
theorem C5_fly_orthographic_unreachable (s : SwitchCamState)
    (evs : List CamSwitchEvent) (hx : exclusive_modes s)
    (hfp : fly_implies_perspective s) (hop : opposite_projection_kinds s) :
    ¬((apply_switch_events s evs).fly.is_enabled = true
      ∧ (apply_switch_events s evs).projection.isOrthographic = true) := by
  rintro ⟨h1, h2⟩
  have hinv := switch_inv_run s evs ⟨hx, hfp, hop⟩
  have := hinv.2.1 h1
  rw [h2] at this
  exact absurd this (by simp)

theorem C5_fly_orthographic_unreachable_witness :
    ¬((apply_switch_events sampleSwitchState
        [CamSwitchEvent.switchToFly, CamSwitchEvent.switchProjection,
         CamSwitchEvent.switchToOrbit]).fly.is_enabled = true
      ∧ (apply_switch_events sampleSwitchState
        [CamSwitchEvent.switchToFly, CamSwitchEvent.switchProjection,
         CamSwitchEvent.switchToOrbit]).projection.isOrthographic = true) :=
  C5_fly_orthographic_unreachable sampleSwitchState
    [CamSwitchEvent.switchToFly, CamSwitchEvent.switchProjection,
     CamSwitchEvent.switchToOrbit]
    (Or.inl ⟨rfl, rfl⟩) (fun h => by simp [sampleSwitchState, sampleFly] at h)
    (by simp [sampleSwitchState, samplePerspective, sampleOrthographic,
      opposite_projection_kinds, Projection.isOrthographic])

/-- C6: on an orbit-enabled, initialized camera in perspective projection
with an orthographic cache, one `SwitchProjection` yields an orthographic
projection whose scale is the pre-switch radius (cache parameters otherwise
kept), and a second `SwitchProjection` restores the cached perspective
projection's fov/aspect/near/far exactly. -/
theorem C6_projection_switch_round_trip (s : SwitchCamState)
    (fov ar near1 far1 scale w h near2 far2 r : ℝ)
    (horb : s.orbit.is_enabled = true)
    (hproj : s.projection = Projection.perspective fov ar near1 far1)
    (hother : s.other_projection = Projection.orthographic scale w h near2 far2)
    (hr : s.orbit.radius = some r) :
    (apply_switch_event s CamSwitchEvent.switchProjection).projection
        = Projection.orthographic r w h near2 far2
    ∧ (apply_switch_event (apply_switch_event s CamSwitchEvent.switchProjection)
        CamSwitchEvent.switchProjection).projection
        = Projection.perspective fov ar near1 far1 := by
  constructor
  · simp [apply_switch_event, switch_camera_projection_on_event, horb,
      switch_camera_projection, hother, update_orbit_transform, unwrapR, hr]
  · simp [apply_switch_event, switch_camera_projection_on_event, horb,
      switch_camera_projection, hother, hproj, update_orbit_transform,
      unwrapR, hr]

theorem C6_projection_switch_round_trip_witness :
    (apply_switch_event sampleSwitchState
        CamSwitchEvent.switchProjection).projection
      = Projection.orthographic 1 2 2 (-1) 1000
    ∧ (apply_switch_event (apply_switch_event sampleSwitchState
        CamSwitchEvent.switchProjection)
        CamSwitchEvent.switchProjection).projection
      = Projection.perspective 0.785 1.5 0.1 1000 :=
  C6_projection_switch_round_trip sampleSwitchState
    0.785 1.5 0.1 1000 1 2 2 (-1) 1000 1 rfl rfl rfl rfl

/-! ## Fly speed clamp -/

lemma rust_clamp_bounds (x lo hi : ℝ) (h : lo ≤ hi) :
    lo ≤ rust_clamp x lo hi ∧ rust_clamp x lo hi ≤ hi := by
  unfold rust_clamp
  split
  · exact ⟨le_refl lo, h⟩
  · split
    · exact ⟨h, le_refl hi⟩
    · constructor <;> linarith [not_lt.mp (by assumption : ¬x < lo),
        not_lt.mp (by assumption : ¬x > hi)]

lemma fly_camera_speed_update_bounds (c : FlyCameraController) (sl sp : ℝ)
    (h1 : 0.05 ≤ c.speed) (h2 : c.speed ≤ 100) :
    0.05 ≤ (fly_camera_speed_update c sl sp).speed
    ∧ (fly_camera_speed_update c sl sp).speed ≤ 100 := by
  unfold fly_camera_speed_update
  dsimp only
  by_cases h : |sl * c.speed_sensitivity + sp * c.speed_sensitivity| > 0
  · rw [if_pos h]
    exact rust_clamp_bounds _ 0.05 100 (by norm_num)
  · rw [if_neg h]
    exact ⟨h1, h2⟩

/-- C8: a fly camera whose speed starts in `[0.05, 100]` keeps its speed in
`[0.05, 100]` across any sequence of (speed-changing) scroll inputs; repeated
scroll-down never goes below `0.05` and repeated scroll-up never exceeds
`100`. -/
theorem C8_fly_speed_clamp (c : FlyCameraController) (scrolls : List (ℝ × ℝ))
    (h1 : 0.05 ≤ c.speed) (h2 : c.speed ≤ 100) :
    0.05 ≤ (fly_camera_speed_run c scrolls).speed
    ∧ (fly_camera_speed_run c scrolls).speed ≤ 100 := by
  unfold fly_camera_speed_run
  induction scrolls generalizing c with
  | nil => exact ⟨h1, h2⟩
  | cons s t ih =>
    have hs := fly_camera_speed_update_bounds c s.1 s.2 h1 h2
    exact ih _ hs.1 hs.2

theorem C8_fly_speed_clamp_witness :
    0.05 ≤ (fly_camera_speed_run sampleFly
      [(-30, 0), (-30, 0), (200, 0), (200, 0), (-1, 0)]).speed
    ∧ (fly_camera_speed_run sampleFly
      [(-30, 0), (-30, 0), (200, 0), (200, 0), (-1, 0)]).speed ≤ 100 :=
  C8_fly_speed_clamp sampleFly [(-30, 0), (-30, 0), (200, 0), (200, 0), (-1, 0)]
    (by norm_num [sampleFly]) (by norm_num [sampleFly])

/-! ## Negative render orders never win arbitration -/

lemma get_camera_entity_fold_none (windows : WindowsM)
    (l : List (ℕ × CameraM))
    (hneg : ∀ p ∈ l,
      (get_window_if_cursor_in_camera_viewport p.2 none windows).isSome = true
      → p.2.order < 0) :
    l.foldl (fun acc ec =>
      if (get_window_if_cursor_in_camera_viewport ec.2 none windows).isSome then
        if ec.2.order ≥ acc.2 then (some ec.1, ec.2.order) else acc
      else acc) ((none : Option ℕ), (0 : ℤ)) = (none, 0) := by
  induction l with
  | nil => rfl
  | cons p t ih =>
    rw [List.foldl_cons]
    by_cases hc :
        (get_window_if_cursor_in_camera_viewport p.2 none windows).isSome = true
    · have horder : ¬(p.2.order ≥ (0 : ℤ)) := by
        have := hneg p (List.mem_cons_self p t) hc
        omega
      simp only [hc, if_true, horder, if_false]
      exact ih (fun q hq hqs => hneg q (List.mem_cons_of_mem p hq) hqs)
    · simp only [hc, if_false]
      exact ih (fun q hq hqs => hneg q (List.mem_cons_of_mem p hq) hqs)

/-- C10: the running maximum render order starts at 0, so a camera with a
negative order is never selected: when every camera whose viewport contains
the cursor has order < 0, `get_camera_entity_from_cursor_position` returns
`none`; and the arbiter records no winner (entity stays `none`) even when
such a camera is the sole candidate with an activation event. -/
theorem C10_negative_order_ignored
    (cameras_query : List (ℕ × CameraM)) (windows : WindowsM)
    (hneg : ∀ p ∈ cameras_query,
      (get_window_if_cursor_in_camera_viewport p.2 none windows).isSome = true
      → p.2.order < 0)
    (prev : ActiveCameraData) (mouse_input key_input : ButtonInputState)
    (scroll_events_nonempty : Bool) (touches : TouchesM) (e : CameraEntry)
    (hctl : e.orbit.isSome = true ∨ e.fly.isSome = true)
    (hact : entry_input_just_activated e mouse_input key_input
      scroll_events_nonempty touches = true)
    (hcand : (get_window_if_cursor_in_camera_viewport e.camera (some touches)
      windows).isSome = true)
    (hord : e.camera.order < 0) :
    get_camera_entity_from_cursor_position cameras_query windows = none
    ∧ (active_viewport_data_system prev mouse_input key_input
        scroll_events_nonempty touches windows [e]).entity = none := by
  constructor
  · unfold get_camera_entity_from_cursor_position
    rw [get_camera_entity_fold_none windows cameras_query hneg]
  · have hskip : (e.orbit.isNone && e.fly.isNone) = false := by
      rcases hctl with h | h
      · cases ho : e.orbit
        · rw [ho] at h; cases h
        · simp [ho]
      · cases hf : e.fly
        · rw [hf] at h; cases h
        · simp [hf]
    obtain ⟨w, hw⟩ := Option.isSome_iff_exists.mp hcand
    have horder : ¬(e.camera.order ≥ (0 : ℤ)) := by omega
    unfold active_viewport_data_system
    simp only [List.foldl_cons, List.foldl_nil, hskip, hact, hw, horder,
      if_false, if_true, Bool.false_eq_true]
    rfl

/-- A camera with render order `-1` occupying the whole primary window. -/
def negOrderCam : CameraM :=
  ⟨RenderTargetM.window WindowRefM.primary, some ⟨(0, 0), (800, 600)⟩,
   some (800, 600), -1⟩

/-- Primary window with the cursor at `(100, 100)`. -/
def cursorWindows : WindowsM := ⟨some (5, ⟨some (100, 100), 800, 600⟩), []⟩

def cxMouse : ButtonInputState := ⟨[2], [2], []⟩

def cxKey : ButtonInputState := ⟨[], [], []⟩

def cxTouches : TouchesM := ⟨[], 0⟩

noncomputable def negOrderEntry : CameraEntry :=
  ⟨0, negOrderCam, some sampleOrbit, none⟩

theorem C10_negative_order_ignored_witness :
    get_camera_entity_from_cursor_position [(0, negOrderCam)] cursorWindows
        = none
    ∧ (active_viewport_data_system ActiveCameraData.default cxMouse cxKey
        false cxTouches cursorWindows [negOrderEntry]).entity = none :=
  C10_negative_order_ignored [(0, negOrderCam)] cursorWindows (by decide)
    ActiveCameraData.default cxMouse cxKey false cxTouches negOrderEntry
    (Or.inl rfl) rfl rfl (by decide)

/-! ## Characterization of the arbiter (`active_viewport_data_system`) -/

/-- Whether an arbiter query row carries at least one controller (rows without
any are skipped by the `continue`). -/
def entry_has_controller (e : CameraEntry) : Bool :=
  !(e.orbit.isNone && e.fly.isNone)

/-- A *candidate* this frame: has a controller, an activation input occurred,
and the pointer lies inside its viewport. -/
def entry_is_candidate (e : CameraEntry) (mouse_input key_input : ButtonInputState)
    (scroll_events_nonempty : Bool) (touches : TouchesM) (windows : WindowsM) :
    Bool :=
  entry_has_controller e
    && entry_input_just_activated e mouse_input key_input
        scroll_events_nonempty touches
    && (get_window_if_cursor_in_camera_viewport e.camera (some touches)
        windows).isSome

/-- Whether any controller-bearing camera saw an activation input this frame
(this is the arbiter's `has_input` flag). -/
def any_activation (cams : List CameraEntry)
    (mouse_input key_input : ButtonInputState) (scroll_events_nonempty : Bool)
    (touches : TouchesM) : Bool :=
  cams.any (fun e => entry_has_controller e
    && entry_input_just_activated e mouse_input key_input
        scroll_events_nonempty touches)

/-- The `ActiveCameraData` derived from a candidate (resolving its window). -/
def candidate_data (windows : WindowsM) (touches : TouchesM) (e : CameraEntry) :
    ActiveCameraData :=
  match get_window_if_cursor_in_camera_viewport e.camera (some touches) windows with
  | some p => winner_data e p.1 p.2
  | none => ActiveCameraData.default

/-- The fold step of `active_viewport_data_system`, named. -/
def arbiter_step (mouse_input key_input : ButtonInputState)
    (scroll_events_nonempty : Bool) (touches : TouchesM) (windows : WindowsM)
    (acc : ActiveCameraData × ℤ × Bool) (e : CameraEntry) :
    ActiveCameraData × ℤ × Bool :=
  if e.orbit.isNone && e.fly.isNone then acc
  else
    if entry_input_just_activated e mouse_input key_input
        scroll_events_nonempty touches then
      match get_window_if_cursor_in_camera_viewport e.camera (some touches)
          windows with
      | some (window_entity, window) =>
        if e.camera.order ≥ acc.2.1 then
          (winner_data e window_entity window, e.camera.order, true)
        else (acc.1, acc.2.1, true)
      | none => (acc.1, acc.2.1, true)
    else acc

/-- The winner-selection step: keep the last candidate whose order is at least
the best-so-far's order (at least 0 when there is no best yet). -/
def winner_step (mouse_input key_input : ButtonInputState)
    (scroll_events_nonempty : Bool) (touches : TouchesM) (windows : WindowsM)
    (best : Option CameraEntry) (e : CameraEntry) : Option CameraEntry :=
  if entry_is_candidate e mouse_input key_input scroll_events_nonempty touches
      windows then
    match best with
    | none => if e.camera.order ≥ 0 then some e else none
    | some b => if e.camera.order ≥ b.camera.order then some e else best
  else best

/-- The arbiter's winner: the last candidate of maximal render order, when
that maximum is at least 0 (the running maximum starts at 0). -/
def arbiter_winner (mouse_input key_input : ButtonInputState)
    (scroll_events_nonempty : Bool) (touches : TouchesM) (windows : WindowsM)
    (cams : List CameraEntry) : Option CameraEntry :=
  cams.foldl (winner_step mouse_input key_input scroll_events_nonempty touches
    windows) none

/-- Correspondence between the arbiter's `(new_resource, max_cam_order)`
accumulator and the abstract best-candidate accumulator. -/
def arbiterAcc (mouse_input key_input : ButtonInputState)
    (scroll_events_nonempty : Bool) (touches : TouchesM) (windows : WindowsM) :
    Option CameraEntry → ActiveCameraData → ℤ → Prop
  | none, res, mx => res = ActiveCameraData.default ∧ mx = 0
  | some b, res, mx =>
      entry_is_candidate b mouse_input key_input scroll_events_nonempty touches
          windows = true
      ∧ res = candidate_data windows touches b ∧ mx = b.camera.order

lemma active_viewport_data_system_eq_fold (active_cam : ActiveCameraData)
    (mouse_input key_input : ButtonInputState) (scroll_events_nonempty : Bool)
    (touches : TouchesM) (windows : WindowsM) (cams : List CameraEntry) :
    active_viewport_data_system active_cam mouse_input key_input
        scroll_events_nonempty touches windows cams =
      (if (cams.foldl (arbiter_step mouse_input key_input scroll_events_nonempty
            touches windows) (ActiveCameraData.default, 0, false)).2.2 then
        (cams.foldl (arbiter_step mouse_input key_input scroll_events_nonempty
            touches windows) (ActiveCameraData.default, 0, false)).1
      else active_cam) := rfl

lemma arbiter_fold_inv (mouse_input key_input : ButtonInputState)
    (scroll_events_nonempty : Bool) (touches : TouchesM) (windows : WindowsM)
    (cams : List CameraEntry) :
    ∀ (res : ActiveCameraData) (mx : ℤ) (hi : Bool) (best : Option CameraEntry),
    arbiterAcc mouse_input key_input scroll_events_nonempty touches windows
      best res mx →
    (arbiterAcc mouse_input key_input scroll_events_nonempty touches windows
      (cams.foldl (winner_step mouse_input key_input scroll_events_nonempty
        touches windows) best)
      (cams.foldl (arbiter_step mouse_input key_input scroll_events_nonempty
        touches windows) (res, mx, hi)).1
      (cams.foldl (arbiter_step mouse_input key_input scroll_events_nonempty
        touches windows) (res, mx, hi)).2.1)
    ∧ (cams.foldl (arbiter_step mouse_input key_input scroll_events_nonempty
        touches windows) (res, mx, hi)).2.2
        = (hi || any_activation cams mouse_input key_input
            scroll_events_nonempty touches) := by
  induction cams with
  | nil =>
    intro res mx hi best h
    simpa [any_activation] using h
  | cons e t ih =>
    intro res mx hi best h
    rw [List.foldl_cons, List.foldl_cons]
    by_cases hctl : (e.orbit.isNone && e.fly.isNone) = true
    · -- skipped by `continue`; not a candidate either
      have hnc : entry_is_candidate e mouse_input key_input
          scroll_events_nonempty touches windows = false := by
        simp [entry_is_candidate, entry_has_controller, hctl]
      have hne : (entry_has_controller e
          && entry_input_just_activated e mouse_input key_input
            scroll_events_nonempty touches) = false := by
        simp [entry_has_controller, hctl]
      rw [show arbiter_step mouse_input key_input scroll_events_nonempty touches
            windows (res, mx, hi) e = (res, mx, hi) by
          simp [arbiter_step, hctl],
        show winner_step mouse_input key_input scroll_events_nonempty touches
            windows best e = best by simp [winner_step, hnc]]
      have := ih res mx hi best h
      simpa [any_activation, List.any_cons, hne] using this
    · by_cases hact : entry_input_just_activated e mouse_input key_input
          scroll_events_nonempty touches = true
      · rcases hw : get_window_if_cursor_in_camera_viewport e.camera
            (some touches) windows with _ | ⟨we, wi⟩
        · -- activated but pointer not in the viewport: only `has_input` is set
          have hnc : entry_is_candidate e mouse_input key_input
              scroll_events_nonempty touches windows = false := by
            simp [entry_is_candidate, hw]
          rw [show arbiter_step mouse_input key_input scroll_events_nonempty
                touches windows (res, mx, hi) e = (res, mx, true) by
              simp [arbiter_step, hctl, hact, hw],
            show winner_step mouse_input key_input scroll_events_nonempty
                touches windows best e = best by simp [winner_step, hnc]]
          have := ih res mx true best h
          have hhe : (entry_has_controller e
              && entry_input_just_activated e mouse_input key_input
                scroll_events_nonempty touches) = true := by
            simp [entry_has_controller, hctl, hact]
          simpa [any_activation, List.any_cons, hhe] using this
        · -- a candidate
          have hcand : entry_is_candidate e mouse_input key_input
              scroll_events_nonempty touches windows = true := by
            simp [entry_is_candidate, entry_has_controller, hctl, hact, hw]
          have hcd : candidate_data windows touches e = winner_data e we wi := by
            simp [candidate_data, hw]
          have hhe : (entry_has_controller e
              && entry_input_just_activated e mouse_input key_input
                scroll_events_nonempty touches) = true := by
            simp [entry_has_controller, hctl, hact]
          rcases best with _ | b
          · obtain ⟨hres, hmx⟩ := h

            by_cases hord : e.camera.order ≥ mx
            · rw [show arbiter_step mouse_input key_input scroll_events_nonempty
                    touches windows (res, mx, hi) e
                    = (winner_data e we wi, e.camera.order, true) by
                  simp [arbiter_step, hctl, hact, hw, hord],
                show winner_step mouse_input key_input scroll_events_nonempty
                    touches windows none e = some e by
                  simp [winner_step, hcand, hmx ▸ hord]]
              have := ih (winner_data e we wi) e.camera.order true (some e)
                ⟨hcand, hcd.symm, rfl⟩
              simpa [any_activation, List.any_cons, hhe] using this
            · rw [show arbiter_step mouse_input key_input scroll_events_nonempty
                    touches windows (res, mx, hi) e = (res, mx, true) by
                  simp [arbiter_step, hctl, hact, hw, hord],
                show winner_step mouse_input key_input scroll_events_nonempty
                    touches windows none e = none by
                  simp [winner_step, hcand, hmx ▸ hord]]
              have := ih res mx true none ⟨hres, hmx⟩
              simpa [any_activation, List.any_cons, hhe] using this
          · obtain ⟨hbc, hres, hmx⟩ := h
            by_cases hord : e.camera.order ≥ mx
            · rw [show arbiter_step mouse_input key_input scroll_events_nonempty
                    touches windows (res, mx, hi) e
                    = (winner_data e we wi, e.camera.order, true) by
                  simp [arbiter_step, hctl, hact, hw, hord],
                show winner_step mouse_input key_input scroll_events_nonempty
                    touches windows (some b) e = some e by
                  simp [winner_step, hcand, hmx ▸ hord]]
              have := ih (winner_data e we wi) e.camera.order true (some e)
                ⟨hcand, hcd.symm, rfl⟩
              simpa [any_activation, List.any_cons, hhe] using this
            · rw [show arbiter_step mouse_input key_input scroll_events_nonempty
                    touches windows (res, mx, hi) e = (res, mx, true) by
                  simp [arbiter_step, hctl, hact, hw, hord],
                show winner_step mouse_input key_input scroll_events_nonempty
                    touches windows (some b) e = some b by
                  simp [winner_step, hcand, hmx ▸ hord]]
              have := ih res mx true (some b) ⟨hbc, hres, hmx⟩
              simpa [any_activation, List.any_cons, hhe] using this
      · -- controller present but no activation input
        have hactf : entry_input_just_activated e mouse_input key_input
            scroll_events_nonempty touches = false := Bool.eq_false_iff.mpr hact
        have hnc : entry_is_candidate e mouse_input key_input
            scroll_events_nonempty touches windows = false := by
          simp [entry_is_candidate, hactf]
        have hne : (entry_has_controller e
            && entry_input_just_activated e mouse_input key_input
              scroll_events_nonempty touches) = false := by
          simp [hactf]
        rw [show arbiter_step mouse_input key_input scroll_events_nonempty
              touches windows (res, mx, hi) e = (res, mx, hi) by
            simp [arbiter_step, hctl, hact],
          show winner_step mouse_input key_input scroll_events_nonempty touches
              windows best e = best by simp [winner_step, hnc]]
        have := ih res mx hi best h
        simpa [any_activation, List.any_cons, hne] using this

/-- Invariant of the winner fold over the processed prefix: `none` means every
candidate seen so far has negative order; `some b` means `b` is a processed
candidate with order ≥ 0 that is maximal among processed candidates. -/
def winnerInv (mouse_input key_input : ButtonInputState)
    (scroll_events_nonempty : Bool) (touches : TouchesM) (windows : WindowsM) :
    Option CameraEntry → List CameraEntry → Prop
  | none, processed => ∀ e ∈ processed,
      entry_is_candidate e mouse_input key_input scroll_events_nonempty touches
        windows = true → e.camera.order < 0
  | some b, processed => b ∈ processed
      ∧ entry_is_candidate b mouse_input key_input scroll_events_nonempty
          touches windows = true
      ∧ 0 ≤ b.camera.order
      ∧ ∀ e ∈ processed,
          entry_is_candidate e mouse_input key_input scroll_events_nonempty
            touches windows = true → e.camera.order ≤ b.camera.order

lemma winner_fold_prop (mouse_input key_input : ButtonInputState)
    (scroll_events_nonempty : Bool) (touches : TouchesM) (windows : WindowsM)
    (cams : List CameraEntry) :
    ∀ (best : Option CameraEntry) (processed : List CameraEntry),
    winnerInv mouse_input key_input scroll_events_nonempty touches windows
      best processed →
    winnerInv mouse_input key_input scroll_events_nonempty touches windows
      (cams.foldl (winner_step mouse_input key_input scroll_events_nonempty
        touches windows) best)
      (processed ++ cams) := by
  induction cams with
  | nil =>
    intro best processed h
    simpa using h
  | cons e t ih =>
    intro best processed h
    rw [List.foldl_cons,
      show processed ++ e :: t = (processed ++ [e]) ++ t by simp]
    apply ih
    by_cases hc : entry_is_candidate e mouse_input key_input
        scroll_events_nonempty touches windows = true
    · rcases best with _ | b
      · by_cases hord : e.camera.order ≥ (0 : ℤ)
        · rw [show winner_step mouse_input key_input scroll_events_nonempty
              touches windows none e = some e by simp [winner_step, hc, hord]]
          refine ⟨List.mem_append.mpr (Or.inr (by simp)), hc, hord, ?_⟩
          intro q hq hqc
          rcases List.mem_append.mp hq with hql | hqr
          · exact le_of_lt (lt_of_lt_of_le (h q hql hqc) hord)
          · rw [List.mem_singleton.mp hqr]
        · rw [show winner_step mouse_input key_input scroll_events_nonempty
              touches windows none e = none by simp [winner_step, hc, hord]]
          intro q hq hqc
          rcases List.mem_append.mp hq with hql | hqr
          · exact h q hql hqc
          · rw [List.mem_singleton.mp hqr]; omega
      · obtain ⟨hbm, hbc, hbn, hbmax⟩ := h
        by_cases hord : e.camera.order ≥ b.camera.order
        · rw [show winner_step mouse_input key_input scroll_events_nonempty
              touches windows (some b) e = some e by
                simp [winner_step, hc, hord]]
          refine ⟨List.mem_append.mpr (Or.inr (by simp)), hc,
            le_trans hbn hord, ?_⟩
          intro q hq hqc
          rcases List.mem_append.mp hq with hql | hqr
          · exact le_trans (hbmax q hql hqc) hord
          · rw [List.mem_singleton.mp hqr]
        · rw [show winner_step mouse_input key_input scroll_events_nonempty
              touches windows (some b) e = some b by
                simp [winner_step, hc, hord]]
          refine ⟨List.mem_append.mpr (Or.inl hbm), hbc, hbn, ?_⟩
          intro q hq hqc
          rcases List.mem_append.mp hq with hql | hqr
          · exact hbmax q hql hqc
          · rw [List.mem_singleton.mp hqr]; omega
    · have hcf : entry_is_candidate e mouse_input key_input
          scroll_events_nonempty touches windows = false :=
        Bool.eq_false_iff.mpr hc
      rw [show winner_step mouse_input key_input scroll_events_nonempty touches
          windows best e = best by simp [winner_step, hcf]]
      rcases best with _ | b
      · intro q hq hqc
        rcases List.mem_append.mp hq with hql | hqr
        · exact h q hql hqc
        · rw [List.mem_singleton.mp hqr] at hqc
          rw [hcf] at hqc
          cases hqc
      · obtain ⟨hbm, hbc, hbn, hbmax⟩ := h
        refine ⟨List.mem_append.mpr (Or.inl hbm), hbc, hbn, ?_⟩
        intro q hq hqc
        rcases List.mem_append.mp hq with hql | hqr
        · exact hbmax q hql hqc
        · rw [List.mem_singleton.mp hqr] at hqc
          rw [hcf] at hqc
          cases hqc

/-- A camera covering the whole primary window, order 0. -/
def wholeCam : CameraM :=
  ⟨RenderTargetM.window WindowRefM.primary, some ⟨(0, 0), (800, 600)⟩,
   some (800, 600), 0⟩

/-- Primary window with no cursor inside (and no touches). -/
def noCursorWindows : WindowsM := ⟨some (5, ⟨none, 800, 600⟩), []⟩

noncomputable def c1Entry : CameraEntry := ⟨1, wholeCam, some sampleOrbit, none⟩

/-- A previously-recorded active camera. -/
def c1Prev : ActiveCameraData :=
  ⟨some 7, some (10, 10), some (800, 600), false, some 5⟩

/-- C1 counterexample: an activation input (an orbit drag press on the sole
controller-bearing camera) with the pointer inside no viewport makes the
arbiter *reset* `ActiveCameraData` to its default value, rather than leaving
the previous value untouched as the claim states. -/
theorem C1_counterexample :
    active_viewport_data_system c1Prev cxMouse cxKey false cxTouches
        noCursorWindows [c1Entry] = ActiveCameraData.default
    ∧ ActiveCameraData.default ≠ c1Prev := by
  refine ⟨rfl, by decide⟩

/-- C1 (amended): per frame the arbiter behaves as follows. If no
controller-bearing camera had an activation input, `ActiveCameraData` is left
untouched. If some camera had an activation input, `ActiveCameraData` is
*replaced*: by the winning candidate's data (entity, viewport size, window
size, window entity, `manual = false`) when a winner exists — the winner being
the last candidate whose render order is maximal among candidates and ≥ 0 —
and by the all-`none` default value otherwise (activation with no candidate,
or candidates only of negative order). -/
theorem C1_active_camera_arbitration (prev : ActiveCameraData)
    (mouse_input key_input : ButtonInputState) (scroll_events_nonempty : Bool)
    (touches : TouchesM) (windows : WindowsM) (cams : List CameraEntry) :
    (any_activation cams mouse_input key_input scroll_events_nonempty touches
        = false →
      active_viewport_data_system prev mouse_input key_input
        scroll_events_nonempty touches windows cams = prev)
    ∧ (any_activation cams mouse_input key_input scroll_events_nonempty touches
        = true →
      active_viewport_data_system prev mouse_input key_input
          scroll_events_nonempty touches windows cams =
        (match arbiter_winner mouse_input key_input scroll_events_nonempty
            touches windows cams with
         | some w => candidate_data windows touches w
         | none => ActiveCameraData.default))
    ∧ (∀ w, arbiter_winner mouse_input key_input scroll_events_nonempty touches
        windows cams = some w →
      w ∈ cams
      ∧ entry_is_candidate w mouse_input key_input scroll_events_nonempty
          touches windows = true
      ∧ 0 ≤ w.camera.order
      ∧ ∀ e ∈ cams, entry_is_candidate e mouse_input key_input
          scroll_events_nonempty touches windows = true →
            e.camera.order ≤ w.camera.order) := by
  have hmain := arbiter_fold_inv mouse_input key_input scroll_events_nonempty
    touches windows cams ActiveCameraData.default 0 false none ⟨rfl, rfl⟩
  refine ⟨?_, ?_, ?_⟩
  · intro hna
    rw [active_viewport_data_system_eq_fold, hmain.2, hna]
    simp
  · intro ha
    rw [active_viewport_data_system_eq_fold, hmain.2, ha]
    simp only [Bool.false_or, if_true]
    have hacc := hmain.1
    rcases hwin : arbiter_winner mouse_input key_input scroll_events_nonempty
        touches windows cams with _ | w
    · unfold arbiter_winner at hwin
      rw [hwin] at hacc
      exact hacc.1
    · unfold arbiter_winner at hwin
      rw [hwin] at hacc
      exact hacc.2.1
  · intro w hw
    have hprop := winner_fold_prop mouse_input key_input scroll_events_nonempty
      touches windows cams none [] (by intro q hq; cases hq)
    unfold arbiter_winner at hw
    rw [hw] at hprop
    simpa using hprop

def emptyMouse : ButtonInputState := ⟨[], [], []⟩

theorem C1_active_camera_arbitration_witness :
    active_viewport_data_system c1Prev emptyMouse cxKey false cxTouches
        noCursorWindows [c1Entry] = c1Prev :=
  (C1_active_camera_arbitration c1Prev emptyMouse cxKey false cxTouches
    noCursorWindows [c1Entry]).1 rfl

/-! ## Radius evolution under zoom (no floor in the zoom path) -/

lemma orbit_camera_pivot_block_controller (c : OrbitCameraController)
    (rs : RaycastSourceState) (t : Transform) (proj : Projection)
    (key mouse : ButtonInputState) (mkt : MouseKeyTracker) (piv : Vec3)
    (had : c.auto_depth = false) :
    (orbit_camera_pivot_block c rs t proj key mouse mkt piv).1 = c := by
  unfold orbit_camera_pivot_block
  split
  · rcases hray : rs.ray with _ | r
    · rfl
    · rcases hhit : rs.nearest_hit with _ | hp
      · rfl
      · simp [had]
  · rfl

lemma orbit_step_fields (c : OrbitCameraController) (v : ℝ × ℝ)
    (ws : Option (ℝ × ℝ)) (piv : Vec3) :
    (orbit_camera_orbit_step c v ws piv).1.radius = c.radius
    ∧ (orbit_camera_orbit_step c v ws piv).1.auto_depth = c.auto_depth
    ∧ (orbit_camera_orbit_step c v ws piv).1.zoom_sensitivity
        = c.zoom_sensitivity := by
  unfold orbit_camera_orbit_step
  split
  · rcases ws with _ | w
    · exact ⟨rfl, rfl, rfl⟩
    · dsimp only
      split <;> exact ⟨rfl, rfl, rfl⟩
  · exact ⟨rfl, rfl, rfl⟩

lemma pan_step_fields (c : OrbitCameraController) (v : ℝ × ℝ)
    (vs : Option (ℝ × ℝ)) (t : Transform) (proj : Projection) :
    (orbit_camera_pan_step c v vs t proj).1.radius = c.radius
    ∧ (orbit_camera_pan_step c v vs t proj).1.auto_depth = c.auto_depth
    ∧ (orbit_camera_pan_step c v vs t proj).1.zoom_sensitivity
        = c.zoom_sensitivity := by
  unfold orbit_camera_pan_step
  split
  · rcases vs with _ | w
    · exact ⟨rfl, rfl, rfl⟩
    · exact ⟨rfl, rfl, rfl⟩
  · exact ⟨rfl, rfl, rfl⟩

lemma zoom_step_fields (c : OrbitCameraController) (sl sp : ℝ) (t : Transform)
    (proj : Projection) (piv : Vec3) (r : ℝ) (hr : c.radius = some r) :
    (orbit_camera_zoom_step c sl sp t proj piv).1.radius
        = some (r * (1 - (sl + sp) * 0.2))
    ∧ (orbit_camera_zoom_step c sl sp t proj piv).1.auto_depth = c.auto_depth
    ∧ (orbit_camera_zoom_step c sl sp t proj piv).1.zoom_sensitivity
        = c.zoom_sensitivity := by
  unfold orbit_camera_zoom_step
  split
  · dsimp only
    have hval : c.radius.map
        (fun v => v + (-sl * unwrapR c.radius * 0.2
          + -sp * unwrapR c.radius * 0.2)) = some (r * (1 - (sl + sp) * 0.2)) := by
      rw [hr]
      simp only [unwrapR, Option.getD_some, Option.map_some']
      congr 1
      ring
    refine ⟨?_, ?_, ?_⟩
    · split
      · rcases proj with _ | _ <;> simpa using hval
      · simpa using hval
    · split
      · rcases proj with _ | _ <;> rfl
      · rfl
    · split
      · rcases proj with _ | _ <;> rfl
      · rfl
  · rename_i hcond
    have h0 : sl + sp = 0 := by
      have h1 : ¬|sl + sp| > 0 := hcond
      have h2 : |sl + sp| ≤ 0 := not_lt.mp h1
      have h3 : |sl + sp| = 0 := le_antisymm h2 (abs_nonneg _)
      exact abs_eq_zero.mp h3
    refine ⟨?_, rfl, rfl⟩
    rw [hr, h0]
    norm_num

/-- The effect of one `orbit_camera` call on the radius when `auto_depth` is
off: the zoom branch multiplies the radius by
`1 - 0.2 * zoom_sensitivity * (scroll_line + scroll_pixel)` with no floor;
no other branch touches the radius. -/
lemma orbit_camera_radius (c : OrbitCameraController) (rs : RaycastSourceState)
    (t : Transform) (proj : Projection) (ws vs : Option (ℝ × ℝ))
    (key mouse : ButtonInputState) (mkt : MouseKeyTracker) (piv : Vec3)
    (had : c.auto_depth = false) (r : ℝ) (hr : c.radius = some r) :
    (orbit_camera c rs t proj ws vs key mouse mkt piv).controller.radius
      = some (r * (1 - (mkt.scroll_line + mkt.scroll_pixel)
          * c.zoom_sensitivity * 0.2))
    ∧ (orbit_camera c rs t proj ws vs key mouse mkt piv).controller.auto_depth
      = false
    ∧ (orbit_camera c rs t proj ws vs key mouse mkt piv
        ).controller.zoom_sensitivity = c.zoom_sensitivity := by
  unfold orbit_camera
  dsimp only
  rw [orbit_camera_pivot_block_controller c rs t proj key mouse mkt piv had]
  set piv2 := (orbit_camera_pivot_block c rs t proj key mouse mkt piv).2
    with hpiv2
  set c1 := (if mkt.orbit_button_changed = true then
      { c with is_upside_down := decide ((t.rotation.mulVec3 ⟨0, 1, 0⟩).y ≤ 0) }
    else c) with hc1
  have hc1r : c1.radius = some r := by
    rw [hc1]; split <;> exact hr
  have hc1a : c1.auto_depth = false := by
    rw [hc1]; split <;> exact had
  have hc1z : c1.zoom_sensitivity = c.zoom_sensitivity := by
    rw [hc1]; split <;> rfl
  have hso := orbit_step_fields c1
    (mkt.orbit.1 * c.orbit_sensitivity, mkt.orbit.2 * c.orbit_sensitivity)
    ws piv2
  have hsp := pan_step_fields (orbit_camera_orbit_step c1
      (mkt.orbit.1 * c.orbit_sensitivity, mkt.orbit.2 * c.orbit_sensitivity)
      ws piv2).1
    (mkt.pan.1 * c.pan_sensitivity, mkt.pan.2 * c.pan_sensitivity) vs t proj
  have hrad2 : (orbit_camera_pan_step (orbit_camera_orbit_step c1
      (mkt.orbit.1 * c.orbit_sensitivity, mkt.orbit.2 * c.orbit_sensitivity)
      ws piv2).1
      (mkt.pan.1 * c.pan_sensitivity, mkt.pan.2 * c.pan_sensitivity) vs t
      proj).1.radius = some r := by
    rw [hsp.1, hso.1, hc1r]
  have hsz := zoom_step_fields (orbit_camera_pan_step (orbit_camera_orbit_step
      c1 (mkt.orbit.1 * c.orbit_sensitivity, mkt.orbit.2 * c.orbit_sensitivity)
      ws piv2).1
      (mkt.pan.1 * c.pan_sensitivity, mkt.pan.2 * c.pan_sensitivity) vs t
      proj).1
    (mkt.scroll_line * c.zoom_sensitivity) (mkt.scroll_pixel * c.zoom_sensitivity)
    t proj piv2 r hrad2
  refine ⟨?_, ?_, ?_⟩
  · rw [hsz.1]
    congr 1
    ring
  · rw [hsz.2.1, hsp.2.1, hso.2.1, hc1a]
  · rw [hsz.2.2, hsp.2.2, hso.2.2, hc1z]

/-- The orbit controller driven by a sequence of scroll-only frames (`s.1` line
scroll, `s.2` pixel scroll; no orbit/pan motion). -/
noncomputable def orbit_camera_scroll_run (c : OrbitCameraController)
    (rs : RaycastSourceState) (t : Transform) (proj : Projection)
    (ws vs : Option (ℝ × ℝ)) (key mouse : ButtonInputState)
    (scrolls : List (ℝ × ℝ)) : OrbitCameraController :=
  scrolls.foldl (fun cc s =>
    (orbit_camera cc rs t proj ws vs key mouse
      ⟨(0, 0), (0, 0), s.1, s.2, false, (0, 0)⟩ Vec3.zero).controller) c

lemma orbit_scroll_run_radius (c : OrbitCameraController)
    (rs : RaycastSourceState) (t : Transform) (proj : Projection)
    (ws vs : Option (ℝ × ℝ)) (key mouse : ButtonInputState)
    (scrolls : List (ℝ × ℝ)) (had : c.auto_depth = false) (r : ℝ)
    (hr : c.radius = some r) :
    (orbit_camera_scroll_run c rs t proj ws vs key mouse scrolls).radius
      = some (scrolls.foldl
          (fun a s => a * (1 - (s.1 + s.2) * c.zoom_sensitivity * 0.2)) r) := by
  unfold orbit_camera_scroll_run
  induction scrolls generalizing c r with
  | nil => simpa using hr
  | cons s tl ih =>
    rw [List.foldl_cons, List.foldl_cons]
    have hstep := orbit_camera_radius c rs t proj ws vs key mouse
      ⟨(0, 0), (0, 0), s.1, s.2, false, (0, 0)⟩ Vec3.zero had r hr
    have hnext := ih (orbit_camera c rs t proj ws vs key mouse
        ⟨(0, 0), (0, 0), s.1, s.2, false, (0, 0)⟩ Vec3.zero).controller
      hstep.2.1 _ hstep.1
    rw [hstep.2.2] at hnext
    exact hnext

/-- Controller for the zoom counterexample: initialized at radius `0.5`,
`auto_depth` and zoom-to-cursor off, unit sensitivities. -/
noncomputable def c2Controller : OrbitCameraController :=
  { sampleOrbit with
    auto_depth := false,
    zoom_to_mouse_position := false,
    radius := some 0.5 }

noncomputable def c2Raycast : RaycastSourceState := ⟨none, none⟩

noncomputable def idTransform : Transform := ⟨Quat.identity, Vec3.zero⟩

/-- C2 counterexample: eleven unit zoom-in scroll events starting from radius
`0.5` drive the radius to `0.5 * 0.8^11 ≈ 0.0429 < 0.05` — the zoom path
applies no `0.05` floor. -/
theorem C2_counterexample :
    (orbit_camera_scroll_run c2Controller c2Raycast idTransform
        samplePerspective none none cxKey emptyMouse
        (List.replicate 11 (1, 0))).radius = some (0.5 * 0.8 ^ 11)
    ∧ (0.5 * (0.8 : ℝ) ^ 11 < 0.05) := by
  constructor
  · rw [orbit_scroll_run_radius c2Controller c2Raycast idTransform
      samplePerspective none none cxKey emptyMouse (List.replicate 11 (1, 0))
      rfl 0.5 rfl]
    congr 1
    show List.foldl _ _ (List.replicate 11 ((1 : ℝ), (0 : ℝ))) = _
    norm_num [List.replicate, List.foldl, c2Controller, sampleOrbit]
  · norm_num

/-- C2 (amended): the orbit zoom path applies no radius floor.  For an
`auto_depth`-disabled controller, each frame with scroll input `(l, p)`
multiplies the radius by `1 - (l + p) * zoom_sensitivity * 0.2` exactly; in
particular zoom-in scrolls can drive the radius below `0.05` (the `0.05`
floor is applied only in initialization, auto-depth retargeting and
frame-to-bounds). -/
theorem C2_zoom_radius_formula (c : OrbitCameraController)
    (rs : RaycastSourceState) (t : Transform) (proj : Projection)
    (ws vs : Option (ℝ × ℝ)) (key mouse : ButtonInputState)
    (scrolls : List (ℝ × ℝ)) (had : c.auto_depth = false) (r : ℝ)
    (hr : c.radius = some r) :
    (orbit_camera_scroll_run c rs t proj ws vs key mouse scrolls).radius
      = some (scrolls.foldl
          (fun a s => a * (1 - (s.1 + s.2) * c.zoom_sensitivity * 0.2)) r) :=
  orbit_scroll_run_radius c rs t proj ws vs key mouse scrolls had r hr

theorem C2_zoom_radius_formula_witness :
    (orbit_camera_scroll_run c2Controller c2Raycast idTransform
        samplePerspective none none cxKey emptyMouse [(1, 0)]).radius
      = some (List.foldl
          (fun a s => a * (1 - (s.1 + s.2) * c2Controller.zoom_sensitivity * 0.2))
          0.5 [(1, 0)]) :=
  C2_zoom_radius_formula c2Controller c2Raycast idTransform samplePerspective
    none none cxKey emptyMouse [(1, 0)] rfl 0.5 rfl

/-! ## Degenerate frame-to-bounds events are warnings, not mutations -/

lemma frame_system_warnings_acc (scene : SceneM) (fuel : ℕ)
    (events : List FrameEventM) :
    ∀ (cams : List (ℕ × FrameCamState)) (ws : List String),
    events.foldl (fun acc ev =>
      let r := frame_one_event scene fuel acc.1 ev
      (r.1, acc.2 ++ r.2)) (cams, ws)
    = ((frame_system scene fuel events cams).1,
       ws ++ (frame_system scene fuel events cams).2) := by
  induction events with
  | nil =>
    intro cams ws
    simp [frame_system]
  | cons ev tl ih =>
    intro cams ws
    rw [List.foldl_cons]
    rw [show frame_system scene fuel (ev :: tl) cams
        = (ev :: tl).foldl (fun acc e =>
            let r := frame_one_event scene fuel acc.1 e
            (r.1, acc.2 ++ r.2)) (cams, ([] : List String)) from rfl]
    rw [List.foldl_cons]
    dsimp only
    rw [ih, ih]
    simp

/-- C7: a `FrameEvent` whose targets contribute no valid bounding volume (the
union box is the sentinel or has no positive extent) logs the degenerate-AABB
warning, leaves every camera's transform, controllers and projection exactly
as they were, and the remaining events are still processed. -/
theorem C7_degenerate_frame_event (scene : SceneM) (fuel : ℕ)
    (cams : List (ℕ × FrameCamState)) (ev : FrameEventM)
    (rest : List FrameEventM)
    (hfound : (cams.find? (fun p => p.1 == ev.camera_entity)).isSome = true)
    (hdeg : ∀ b, get_entities_aabb scene fuel ev.entities_to_be_framed
      ev.include_children = some b → (b.2.sub b.1).max_element ≤ 0) :
    frame_system scene fuel (ev :: rest) cams
      = ((frame_system scene fuel rest cams).1,
         "Could not focus because entities (and children) do not have any AABB"
           :: (frame_system scene fuel rest cams).2) := by
  have hone : frame_one_event scene fuel cams ev = (cams,
      ["Could not focus because entities (and children) do not have any AABB"])
      := by
    unfold frame_one_event
    obtain ⟨row, hrow⟩ := Option.isSome_iff_exists.mp hfound
    rw [hrow]
    rcases hb : get_entities_aabb scene fuel ev.entities_to_be_framed
        ev.include_children with _ | b
    · rfl
    · have hle := hdeg b hb
      dsimp only
      rw [if_neg (not_lt.mpr hle)]
  rw [show frame_system scene fuel (ev :: rest) cams
      = (ev :: rest).foldl (fun acc e =>
          let r := frame_one_event scene fuel acc.1 e
          (r.1, acc.2 ++ r.2)) (cams, ([] : List String)) from rfl]
  rw [List.foldl_cons]
  dsimp only
  rw [hone]
  rw [frame_system_warnings_acc scene fuel rest cams]
  simp

/-- A scene with a single entity that has a transform but no `Aabb` and no
children. -/
noncomputable def c7Scene : SceneM :=
  [(4, ⟨fun v => v, none, none⟩)]

noncomputable def c7Camera : FrameCamState :=
  ⟨idTransform, some sampleOrbit, none, samplePerspective⟩

noncomputable def c7Event : FrameEventM := ⟨9, [4], false⟩

theorem C7_degenerate_frame_event_witness :
    frame_system c7Scene 8 [c7Event] [(9, c7Camera)]
      = ((frame_system c7Scene 8 [] [(9, c7Camera)]).1,
         "Could not focus because entities (and children) do not have any AABB"
           :: (frame_system c7Scene 8 [] [(9, c7Camera)]).2) :=
  C7_degenerate_frame_event c7Scene 8 [(9, c7Camera)] c7Event [] rfl
    (fun b hb => by
      have h0 : get_entities_aabb c7Scene 8 c7Event.entities_to_be_framed
          c7Event.include_children = none := rfl
      rw [h0] at hb
      cases hb)

/-! ## Orbit round trip (`calculate_from_translation_and_focus` after
`camera_transform_form_orbit`) -/

/-- The back axis of the orbit rotation `Ry(yaw) * Rx(-pitch)` in closed form. -/
lemma orbit_rotation_back (yaw pitch : ℝ) :
    ((Quat.fromRotationY yaw).mul (Quat.fromRotationX (-pitch))).mulVec3
        ⟨0, 0, 1⟩
      = ⟨Real.cos pitch * Real.sin yaw, Real.sin pitch,
         Real.cos pitch * Real.cos yaw⟩ := by
  have hy := Real.sin_sq_add_cos_sq (yaw / 2)
  have hp := Real.sin_sq_add_cos_sq (pitch / 2)
  have hsy : Real.sin yaw = 2 * Real.sin (yaw / 2) * Real.cos (yaw / 2) := by
    have h := Real.sin_two_mul (yaw / 2)
    rw [show 2 * (yaw / 2) = yaw by ring] at h
    exact h
  have hcy : Real.cos yaw = 2 * Real.cos (yaw / 2) ^ 2 - 1 := by
    have h := Real.cos_two_mul (yaw / 2)
    rw [show 2 * (yaw / 2) = yaw by ring] at h
    exact h
  have hsp : Real.sin pitch = 2 * Real.sin (pitch / 2) * Real.cos (pitch / 2) := by
    have h := Real.sin_two_mul (pitch / 2)
    rw [show 2 * (pitch / 2) = pitch by ring] at h
    exact h
  have hcp : Real.cos pitch = 2 * Real.cos (pitch / 2) ^ 2 - 1 := by
    have h := Real.cos_two_mul (pitch / 2)
    rw [show 2 * (pitch / 2) = pitch by ring] at h
    exact h
  unfold Quat.fromRotationY Quat.fromRotationX Quat.mul Quat.mulVec3
  dsimp only
  rw [show -pitch / 2 = -(pitch / 2) by ring, Real.sin_neg, Real.cos_neg]
  unfold Vec3.dot Vec3.cross Vec3.smul Vec3.add
  dsimp only
  rw [Vec3.mk.injEq]
  refine ⟨?_, ?_, ?_⟩
  · rw [hsy, hcp]
    linear_combination (-(2 * Real.sin (yaw / 2) * Real.cos (yaw / 2))) * hp
  · rw [hsp]
    linear_combination (2 * Real.sin (pitch / 2) * Real.cos (pitch / 2)) * hy
  · rw [hcy, hcp]
    linear_combination (-(2 * Real.cos (yaw / 2) ^ 2 - 1)) * hp
      + (-(2 * Real.cos (pitch / 2) ^ 2 - 1)
          + (Real.sin (pitch / 2) ^ 2 + Real.cos (pitch / 2) ^ 2 - 1)) * hy

/-- The translation produced by `camera_transform_form_orbit` in closed form. -/
lemma camera_transform_form_orbit_translation (yaw pitch radius : ℝ)
    (focus : Vec3) :
    (camera_transform_form_orbit yaw pitch radius focus).translation
      = ⟨focus.x + radius * (Real.cos pitch * Real.sin yaw),
         focus.y + radius * Real.sin pitch,
         focus.z + radius * (Real.cos pitch * Real.cos yaw)⟩ := by
  unfold camera_transform_form_orbit
  dsimp only [Transform.back]
  rw [orbit_rotation_back]
  simp [Vec3.add, Vec3.smul, mul_comm]

lemma orbit_offset_norm (yaw pitch radius : ℝ) (hr : 0 ≤ radius) :
    Real.sqrt ((radius * (Real.cos pitch * Real.sin yaw)) ^ 2
      + (radius * Real.sin pitch) ^ 2
      + (radius * (Real.cos pitch * Real.cos yaw)) ^ 2) = radius := by
  have h1 : (radius * (Real.cos pitch * Real.sin yaw)) ^ 2
      + (radius * Real.sin pitch) ^ 2
      + (radius * (Real.cos pitch * Real.cos yaw)) ^ 2 = radius ^ 2 := by
    have hy := Real.sin_sq_add_cos_sq yaw
    have hp := Real.sin_sq_add_cos_sq pitch
    linear_combination (radius ^ 2 * Real.cos pitch ^ 2) * hy
      + radius ^ 2 * hp
  rw [h1, Real.sqrt_sq hr]

/-- C3 (amended): for `yaw ∈ [0, π]`, `pitch ∈ (-π/2, π/2)` and
`radius ≥ 0.05`, `calculate_from_translation_and_focus` applied to the
translation of `camera_transform_form_orbit(yaw, pitch, radius, focus)` and
`focus` recovers `(yaw, pitch, radius)` exactly (in particular within any
positive epsilon).  Outside that yaw/pitch range the inverse returns the
equivalent principal angles instead (see the counterexample). -/
theorem C3_orbit_round_trip (yaw pitch radius : ℝ) (focus : Vec3)
    (hy1 : 0 ≤ yaw) (hy2 : yaw ≤ Real.pi)
    (hp1 : -(Real.pi / 2) < pitch) (hp2 : pitch < Real.pi / 2)
    (hr : 0.05 ≤ radius) :
    calculate_from_translation_and_focus
      (camera_transform_form_orbit yaw pitch radius focus).translation focus
      = (yaw, pitch, radius) := by
  have hrpos : (0 : ℝ) < radius := lt_of_lt_of_le (by norm_num) hr
  have hcp : 0 < Real.cos pitch := Real.cos_pos_of_mem_Ioo ⟨hp1, hp2⟩
  rw [camera_transform_form_orbit_translation]
  unfold calculate_from_translation_and_focus
  simp only [Vec3.sub]
  have hx : focus.x + radius * (Real.cos pitch * Real.sin yaw) - focus.x
      = radius * (Real.cos pitch * Real.sin yaw) := by ring
  have hyy : focus.y + radius * Real.sin pitch - focus.y
      = radius * Real.sin pitch := by ring
  have hz : focus.z + radius * (Real.cos pitch * Real.cos yaw) - focus.z
      = radius * (Real.cos pitch * Real.cos yaw) := by ring
  rw [hx, hyy, hz]
  unfold Vec3.length
  dsimp only
  rw [orbit_offset_norm yaw pitch radius (le_of_lt hrpos)]
  rw [max_eq_left hr]
  have hpitch : Real.arcsin (radius * Real.sin pitch / radius) = pitch := by
    rw [mul_comm, mul_div_assoc, div_self (ne_of_gt hrpos), mul_one]
    exact Real.arcsin_sin (le_of_lt hp1) (le_of_lt hp2)
  rw [hpitch]
  simp only [Prod.mk.injEq]
  refine And.intro ?_ (by simp)
  by_cases hy0 : yaw = 0
  · subst hy0
    rw [if_pos ⟨by rw [Real.sin_zero]; ring,
      by rw [Real.cos_zero, mul_one]; exact le_of_lt (mul_pos hrpos hcp)⟩]
  · by_cases hypi : yaw = Real.pi
    · subst hypi
      rw [if_neg (by
        rintro ⟨-, hzn⟩
        rw [Real.cos_pi] at hzn
        nlinarith [mul_pos hrpos hcp])]
      have hxz : (radius * (Real.cos pitch * Real.sin Real.pi)) ^ 2
          + (radius * (Real.cos pitch * Real.cos Real.pi)) ^ 2
          = (radius * Real.cos pitch) ^ 2 := by
        rw [Real.sin_pi, Real.cos_pi]
        ring
      rw [hxz, Real.sqrt_sq (le_of_lt (mul_pos hrpos hcp))]
      rw [show radius * (Real.cos pitch * Real.cos Real.pi)
          / (radius * Real.cos pitch) = -1 by
        rw [Real.cos_pi]
        field_simp]
      exact Real.arccos_neg_one
    · have h0lt : 0 < yaw := lt_of_le_of_ne hy1 (Ne.symm hy0)
      have hltpi : yaw < Real.pi := lt_of_le_of_ne hy2 hypi
      have hsy : 0 < Real.sin yaw := Real.sin_pos_of_pos_of_lt_pi h0lt hltpi
      have hxpos : 0 < radius * (Real.cos pitch * Real.sin yaw) :=
        mul_pos hrpos (mul_pos hcp hsy)
      rw [if_neg (by rintro ⟨hx0, -⟩; exact (ne_of_gt hxpos) hx0)]
      have hxz : (radius * (Real.cos pitch * Real.sin yaw)) ^ 2
          + (radius * (Real.cos pitch * Real.cos yaw)) ^ 2
          = (radius * Real.cos pitch) ^ 2 := by
        linear_combination ((radius * Real.cos pitch) ^ 2)
          * Real.sin_sq_add_cos_sq yaw
      rw [hxz, Real.sqrt_sq (le_of_lt (mul_pos hrpos hcp))]
      rw [show radius * (Real.cos pitch * Real.cos yaw)
          / (radius * Real.cos pitch) = Real.cos yaw by
        rw [show radius * (Real.cos pitch * Real.cos yaw)
            = (radius * Real.cos pitch) * Real.cos yaw by ring]
        exact mul_div_cancel_left₀ _ (ne_of_gt (mul_pos hrpos hcp))]
      exact Real.arccos_cos hy1 hy2

theorem C3_orbit_round_trip_witness :
    calculate_from_translation_and_focus
      (camera_transform_form_orbit 1 0.5 2 Vec3.zero).translation Vec3.zero
      = (1, 0.5, 2) :=
  C3_orbit_round_trip 1 0.5 2 Vec3.zero (by norm_num)
    (le_of_lt (lt_trans (by norm_num) Real.pi_gt_three))
    (by nlinarith [Real.pi_gt_three]) (by nlinarith [Real.pi_gt_three])
    (by norm_num)

/-- C3 counterexample: at `yaw = -π/2`, `pitch = 0`, `radius = 1`,
`focus = 0` the produced offset is `(-1, 0, 0)` — not the excluded
singularity `(x = 0, z < 0)` — yet the recovered yaw is `π/2`, which is off
from `-π/2` by `π`, far beyond the `1e-3` epsilon. -/
theorem C3_counterexample :
    (camera_transform_form_orbit (-(Real.pi / 2)) 0 1 Vec3.zero).translation.x
        ≠ 0
    ∧ (calculate_from_translation_and_focus
        (camera_transform_form_orbit (-(Real.pi / 2)) 0 1 Vec3.zero).translation
        Vec3.zero).1 = Real.pi / 2
    ∧ ¬(|(calculate_from_translation_and_focus
          (camera_transform_form_orbit (-(Real.pi / 2)) 0 1 Vec3.zero
            ).translation Vec3.zero).1 - (-(Real.pi / 2))| < 1e-3) := by
  have htrans : (camera_transform_form_orbit (-(Real.pi / 2)) 0 1
      Vec3.zero).translation = ⟨-1, 0, 0⟩ := by
    rw [camera_transform_form_orbit_translation]
    rw [Vec3.mk.injEq]
    refine ⟨?_, ?_, ?_⟩ <;>
      simp [Vec3.zero, Real.sin_neg, Real.cos_neg, Real.sin_pi_div_two,
        Real.cos_pi_div_two]
  have hcalc : (calculate_from_translation_and_focus
      (⟨-1, 0, 0⟩ : Vec3) Vec3.zero).1 = Real.pi / 2 := by
    unfold calculate_from_translation_and_focus
    simp only [Vec3.sub, Vec3.zero]
    rw [if_neg (by rintro ⟨hx0, -⟩; norm_num at hx0)]
    rw [show ((0 : ℝ) - 0) / Real.sqrt (((-1 : ℝ) - 0) ^ 2 + ((0 : ℝ) - 0) ^ 2)
        = 0 by norm_num]
    exact Real.arccos_zero
  refine ⟨by rw [htrans]; norm_num, by rw [htrans]; exact hcalc, ?_⟩
  rw [htrans, hcalc]
  rw [show Real.pi / 2 - -(Real.pi / 2) = Real.pi by ring,
    abs_of_pos Real.pi_pos]
  exact not_lt.mpr (le_trans (by norm_num) (le_of_lt Real.pi_gt_three))

/-! ## The pivot point is a single system-wide `Local`, shared across cameras -/

/-- Orbit controller used by both cameras of the pivot scenario:
zoom-to-cursor on, auto-depth off, unit sensitivities, initialized at
radius 1 looking down `-Z`. -/
noncomputable def c9Ctrl : OrbitCameraController :=
  { focus := Vec3.zero, radius := some 1, yaw := some 0, pitch := some 0,
    orbit_sensitivity := 1, pan_sensitivity := 1, zoom_sensitivity := 1,
    button_orbit := 2, modifier_orbit := none, button_pan := 3,
    modifier_pan := none, is_enabled := true, is_initialized := true,
    zoom_to_mouse_position := true, auto_depth := false, wrap_cursor := false,
    is_upside_down := false, force_update := false }

/-- Camera A (entity 0): its raycast source has a cursor ray and a nearest
hit at `p`. -/
noncomputable def c9EntryA (p : Vec3) : OrbitCamEntry :=
  ⟨0, c9Ctrl, ⟨some ⟨Vec3.zero, ⟨0, 0, -1⟩⟩, some p⟩, idTransform,
   samplePerspective⟩

/-- Camera B (entity 1): its raycast source yields no ray at all. -/
noncomputable def c9EntryB : OrbitCamEntry :=
  ⟨1, c9Ctrl, ⟨none, none⟩, idTransform, samplePerspective⟩

def c9Active1 : ActiveCameraData :=
  ⟨some 0, some (800, 600), some (800, 600), false, some 5⟩

def c9Active2 : ActiveCameraData :=
  ⟨some 1, some (800, 600), some (800, 600), false, some 5⟩

/-- Frame 1 inputs: an orbit-drag press, no motion, no scroll. -/
noncomputable def c9Tracker1 : MouseKeyTracker :=
  ⟨(0, 0), (0, 0), 0, 0, false, (0, 0)⟩

/-- Frame 2 inputs: one unit of line scroll. -/
noncomputable def c9Tracker2 : MouseKeyTracker :=
  ⟨(0, 0), (0, 0), 1, 0, false, (0, 0)⟩

/-- Frame 1: camera A is the active camera; its raycast hit `p` is written
into the shared pivot. -/
noncomputable def c9Frame1 (p : Vec3) : List OrbitCamEntry × Vec3 :=
  orbit_camera_controller_system c9Active1 cxKey cxMouse c9Tracker1
    [c9EntryA p, c9EntryB] Vec3.zero

/-- Frame 2: camera B is the active camera and zooms by one scroll unit; its
own raycast yields no ray. -/
noncomputable def c9Frame2 (p : Vec3) : List OrbitCamEntry × Vec3 :=
  orbit_camera_controller_system c9Active2 cxKey emptyMouse c9Tracker2
    (c9Frame1 p).1 (c9Frame1 p).2

/-- The dolly-to-cursor focus camera B computes when its zoom consumes the
pivot `p`: `dir = normalize p`, `factor = (0,0,-1)·dir`,
`focus = dir * (0.2 / factor) + (0,0,-1) * 0.8`. -/
noncomputable def c9ZoomFocus (p : Vec3) : Vec3 :=
  let mouse_direction := p.normalize
  let factor := (Vec3.mk 0 0 (-1)).dot mouse_direction
  (mouse_direction.smul (0.2 / factor)).add ((Vec3.mk 0 0 (-1)).smul 0.8)

/-- Camera B's resulting components after frame 2. -/
noncomputable def c9BAfter (p : Vec3) : OrbitCamEntry :=
  ⟨1, { c9Ctrl with radius := some 0.8, focus := c9ZoomFocus p },
   ⟨none, none⟩, camera_transform_form_orbit 0 0 0.8 (c9ZoomFocus p),
   samplePerspective⟩

lemma orbit_entry_update_skip (ae : Option ℕ) (ws vs : Option (ℝ × ℝ))
    (key mouse : ButtonInputState) (mkt : MouseKeyTracker)
    (e : OrbitCamEntry) (piv : Vec3)
    (hinit : e.controller.is_initialized = true)
    (hne : ¬(e.controller.is_enabled = true ∧ ae = some e.entity))
    (hf : e.controller.force_update = false) :
    orbit_entry_update ae ws vs key mouse mkt e piv = (e, piv) := by
  unfold orbit_entry_update init_if_necessary
  rw [if_pos hinit]
  dsimp only
  rw [if_neg hne]
  dsimp only
  rcases hy : e.controller.yaw with _ | y <;>
    rcases hp : e.controller.pitch with _ | pt <;>
      rcases hr : e.controller.radius with _ | r <;>
        simp only [hy, hp, hr] <;>
          first
            | rfl
            | (simp only [hf]
               rw [if_neg (by simp)])

lemma c9_A_pivot (p : Vec3) :
    orbit_camera_pivot_block c9Ctrl ⟨some ⟨Vec3.zero, ⟨0, 0, -1⟩⟩, some p⟩
      idTransform samplePerspective cxKey cxMouse c9Tracker1 Vec3.zero
      = (c9Ctrl, p) := by
  unfold orbit_camera_pivot_block
  rw [if_pos ⟨Or.inr rfl, Or.inl rfl⟩]
  rfl

lemma c9_orbit_step_zero (c : OrbitCameraController) (mkt : MouseKeyTracker)
    (hz : mkt.orbit.1 = 0 ∧ mkt.orbit.2 = 0) (ws : Option (ℝ × ℝ))
    (piv : Vec3) :
    orbit_camera_orbit_step c
      (mkt.orbit.1 * c.orbit_sensitivity, mkt.orbit.2 * c.orbit_sensitivity)
      ws piv = (c, false) := by
  unfold orbit_camera_orbit_step
  rw [if_neg (by rw [hz.1, hz.2]; norm_num)]

lemma c9_pan_step_zero (c : OrbitCameraController) (mkt : MouseKeyTracker)
    (hz : mkt.pan.1 = 0 ∧ mkt.pan.2 = 0) (vs : Option (ℝ × ℝ))
    (t : Transform) (proj : Projection) :
    orbit_camera_pan_step c
      (mkt.pan.1 * c.pan_sensitivity, mkt.pan.2 * c.pan_sensitivity)
      vs t proj = (c, false) := by
  unfold orbit_camera_pan_step
  rw [if_neg (by rw [hz.1, hz.2]; norm_num)]

lemma c9_zoom_step_zero (c : OrbitCameraController) (mkt : MouseKeyTracker)
    (hz : mkt.scroll_line = 0 ∧ mkt.scroll_pixel = 0) (t : Transform)
    (proj : Projection) (piv : Vec3) :
    orbit_camera_zoom_step c (mkt.scroll_line * c.zoom_sensitivity)
      (mkt.scroll_pixel * c.zoom_sensitivity) t proj piv = (c, false) := by
  unfold orbit_camera_zoom_step
  rw [if_neg (by rw [hz.1, hz.2]; norm_num)]

lemma c9_A_orbit_camera (p : Vec3) (ws vs : Option (ℝ × ℝ)) :
    orbit_camera c9Ctrl ⟨some ⟨Vec3.zero, ⟨0, 0, -1⟩⟩, some p⟩ idTransform
      samplePerspective ws vs cxKey cxMouse c9Tracker1 Vec3.zero
      = ⟨c9Ctrl, p, false⟩ := by
  unfold orbit_camera
  dsimp only
  rw [c9_A_pivot p]
  dsimp only
  have hobc : c9Tracker1.orbit_button_changed = false := rfl
  rw [hobc, if_neg (show ¬(false = true) by simp)]
  rw [c9_orbit_step_zero c9Ctrl c9Tracker1 ⟨rfl, rfl⟩ ws p]
  dsimp only
  rw [c9_pan_step_zero c9Ctrl c9Tracker1 ⟨rfl, rfl⟩ vs idTransform
    samplePerspective]
  dsimp only
  rw [c9_zoom_step_zero c9Ctrl c9Tracker1 ⟨rfl, rfl⟩ idTransform
    samplePerspective p]
  rfl

lemma c9_A_update (p : Vec3) (ws vs : Option (ℝ × ℝ)) :
    orbit_entry_update (some 0) ws vs cxKey cxMouse c9Tracker1 (c9EntryA p)
      Vec3.zero = (c9EntryA p, p) := by
  unfold orbit_entry_update init_if_necessary
  have h1 : (c9EntryA p).controller.is_initialized = true := rfl
  rw [if_pos h1]
  dsimp only
  have h2 : (c9EntryA p).controller.is_enabled = true := rfl
  have h3 : (some 0 : Option ℕ) = some (c9EntryA p).entity := rfl
  rw [if_pos (And.intro h2 h3)]
  rw [(show (c9EntryA p).controller = c9Ctrl from rfl),
    (show (c9EntryA p).raycast_source = ⟨some ⟨Vec3.zero, ⟨0, 0, -1⟩⟩, some p⟩
      from rfl),
    (show (c9EntryA p).transform = idTransform from rfl),
    (show (c9EntryA p).projection = samplePerspective from rfl)]
  rw [c9_A_orbit_camera p ws vs]
  dsimp only
  rw [(show c9Ctrl.yaw = some 0 from rfl), (show c9Ctrl.pitch = some 0 from rfl),
    (show c9Ctrl.radius = some 1 from rfl)]
  dsimp only
  rw [if_neg (by simp [c9Ctrl])]
  rfl

lemma c9_B_pivot (piv : Vec3) :
    orbit_camera_pivot_block c9Ctrl ⟨none, none⟩ idTransform samplePerspective
      cxKey emptyMouse c9Tracker2 piv = (c9Ctrl, piv) := by
  unfold orbit_camera_pivot_block
  rw [if_pos ⟨Or.inr rfl,
    Or.inr (Or.inr (Or.inl (by norm_num [c9Tracker2])))⟩]

lemma c9_B_zoom (piv : Vec3) :
    orbit_camera_zoom_step c9Ctrl
      (c9Tracker2.scroll_line * c9Ctrl.zoom_sensitivity)
      (c9Tracker2.scroll_pixel * c9Ctrl.zoom_sensitivity) idTransform
      samplePerspective piv
      = ({ c9Ctrl with radius := some 0.8, focus := c9ZoomFocus piv }, true) := by
  unfold orbit_camera_zoom_step
  rw [if_pos (by norm_num [c9Tracker2, c9Ctrl] :
    |c9Tracker2.scroll_line * c9Ctrl.zoom_sensitivity
      + c9Tracker2.scroll_pixel * c9Ctrl.zoom_sensitivity| > 0)]
  dsimp only
  rw [Prod.mk.injEq]
  refine ⟨?_, rfl⟩
  simp only [c9Tracker2, c9Ctrl, samplePerspective, unwrapR, Option.getD_some,
    Option.map_some', if_true]
  simp only [c9ZoomFocus, idTransform, Transform.forward, Quat.identity,
    Quat.mulVec3, Vec3.dot, Vec3.cross, Vec3.smul, Vec3.add, Vec3.sub,
    Vec3.normalize, Vec3.length, Vec3.zero]
  rw [OrbitCameraController.mk.injEq]
  norm_num

lemma c9_B_orbit_camera (piv : Vec3) (ws vs : Option (ℝ × ℝ)) :
    orbit_camera c9Ctrl ⟨none, none⟩ idTransform samplePerspective ws vs
      cxKey emptyMouse c9Tracker2 piv
      = ⟨{ c9Ctrl with radius := some 0.8, focus := c9ZoomFocus piv },
         piv, true⟩ := by
  unfold orbit_camera
  dsimp only
  rw [c9_B_pivot piv]
  dsimp only
  have hobc : c9Tracker2.orbit_button_changed = false := rfl
  rw [hobc, if_neg (show ¬(false = true) by simp)]
  rw [c9_orbit_step_zero c9Ctrl c9Tracker2 ⟨rfl, rfl⟩ ws piv]
  dsimp only
  rw [c9_pan_step_zero c9Ctrl c9Tracker2 ⟨rfl, rfl⟩ vs idTransform
    samplePerspective]
  dsimp only
  rw [c9_B_zoom piv]
  rfl

lemma c9_B_update (piv : Vec3) (ws vs : Option (ℝ × ℝ)) :
    orbit_entry_update (some 1) ws vs cxKey emptyMouse c9Tracker2 c9EntryB piv
      = (c9BAfter piv, piv) := by
  unfold orbit_entry_update init_if_necessary
  have h1 : c9EntryB.controller.is_initialized = true := rfl
  rw [if_pos h1]
  dsimp only
  have h2 : c9EntryB.controller.is_enabled = true := rfl
  have h3 : (some 1 : Option ℕ) = some c9EntryB.entity := rfl
  rw [if_pos (And.intro h2 h3)]
  rw [(show c9EntryB.controller = c9Ctrl from rfl),
    (show c9EntryB.raycast_source = (⟨none, none⟩ : RaycastSourceState)
      from rfl),
    (show c9EntryB.transform = idTransform from rfl),
    (show c9EntryB.projection = samplePerspective from rfl)]
  rw [c9_B_orbit_camera piv ws vs]
  dsimp only
  rw [(show c9Ctrl.yaw = some 0 from rfl), (show c9Ctrl.pitch = some 0 from rfl)]
  dsimp only
  have hcond : (true = true ∨ c9Ctrl.force_update = true) := Or.inl rfl
  rw [if_pos hcond]
  rfl

lemma c9_frame1_eval (p : Vec3) : c9Frame1 p = ([c9EntryA p, c9EntryB], p) := by
  unfold c9Frame1 orbit_camera_controller_system
  rw [List.foldl_cons, List.foldl_cons, List.foldl_nil]
  dsimp only
  rw [(show c9Active1.entity = some 0 from rfl)]
  rw [c9_A_update p (c9Active1.window_size.map q2r)
    (c9Active1.viewport_size.map q2r)]
  dsimp only
  rw [orbit_entry_update_skip (some 0) (c9Active1.window_size.map q2r)
    (c9Active1.viewport_size.map q2r) cxKey cxMouse c9Tracker1 c9EntryB p rfl
    (by simp [c9EntryB]) rfl]
  simp

lemma c9_frame2_eval (p : Vec3) :
    c9Frame2 p = ([c9EntryA p, c9BAfter p], p) := by
  unfold c9Frame2
  rw [c9_frame1_eval p]
  dsimp only
  unfold orbit_camera_controller_system
  rw [List.foldl_cons, List.foldl_cons, List.foldl_nil]
  dsimp only
  rw [(show c9Active2.entity = some 1 from rfl)]
  rw [orbit_entry_update_skip (some 1) (c9Active2.window_size.map q2r)
    (c9Active2.viewport_size.map q2r) cxKey emptyMouse c9Tracker2
    (c9EntryA p) p rfl (by simp [c9EntryA]) rfl]
  dsimp only
  rw [c9_B_update p (c9Active2.window_size.map q2r)
    (c9Active2.viewport_size.map q2r)]
  simp

/-- C9 (amended): the pivot point is one system-wide `Local` threaded through
every orbit camera in turn, not per-camera state.  After a frame in which
active camera A records its raycast hit `p` into the pivot, and a following
frame in which active camera B zooms while its own raycast yields no ray, B
does not overwrite the pivot (it stays `p` across both frames) and B's
zoom-to-cursor computation consumes `p` — a value sampled during another
camera's update: B's resulting focus is the dolly formula anchored at `p`
(`c9BAfter`/`c9ZoomFocus`). -/
theorem C9_pivot_point_shared (p : Vec3) :
    (c9Frame1 p).2 = p
    ∧ (c9Frame2 p).1 = [c9EntryA p, c9BAfter p]
    ∧ (c9Frame2 p).2 = p := by
  refine ⟨?_, ?_, ?_⟩
  · rw [c9_frame1_eval]
  · rw [c9_frame2_eval]
  · rw [c9_frame2_eval]

/-- C9 counterexample: two runs that differ only in camera A's frame-1
raycast hit — `(0,0,-2)` versus `(3,0,-4)` — produce different focus values
for camera B in frame 2 (`0` versus `3/20` in x).  Camera B's zoom therefore
consumed a pivot last written during camera A's update, contradicting the
claimed per-camera scoping. -/
theorem C9_counterexample :
    ((c9Frame2 ⟨0, 0, -2⟩).1.get? 1).map (fun e => e.controller.focus.x)
        = some 0
    ∧ ((c9Frame2 ⟨3, 0, -4⟩).1.get? 1).map (fun e => e.controller.focus.x)
        = some (3 / 20)
    ∧ ((0 : ℝ) ≠ 3 / 20) := by
  refine ⟨?_, ?_, by norm_num⟩
  · rw [c9_frame2_eval]
    have hx : (c9ZoomFocus ⟨0, 0, -2⟩).x = 0 := by
      unfold c9ZoomFocus Vec3.normalize Vec3.length Vec3.dot Vec3.smul
        Vec3.add
      norm_num
    simp [c9BAfter, hx]
  · rw [c9_frame2_eval]
    have hx : (c9ZoomFocus ⟨3, 0, -4⟩).x = 3 / 20 := by
      unfold c9ZoomFocus Vec3.normalize Vec3.length Vec3.dot Vec3.smul
        Vec3.add
      rw [show ((3 : ℝ)) ^ 2 + ((0 : ℝ)) ^ 2 + ((-4 : ℝ)) ^ 2
          = 5 ^ 2 by norm_num]
      rw [Real.sqrt_sq (by norm_num : (0 : ℝ) ≤ 5)]
      norm_num
    simp [c9BAfter, hx]

end BC
